import Mathlib

/-!
Verification development for the Gut-Instincts evaluation engine.

The definitions below are a shallow embedding of the repository's metric
evaluation code (`src/training/calculate_metrics.py`) and of the ensemble
voter (`src/inference/re_ensemble_inference.py`).  Python dictionaries are
modelled by insertion-ordered association lists, Python exceptions by the
`Except` monad, and Python floats by exact rationals (the smoothing constant
`1e-10` becomes the rational `1 / 10^10`).
-/

namespace GutMetrics

/-! ### Association lists modelling Python dicts (insertion ordered) -/

/-- `d[k]` lookup: the value stored at the first matching key, if any. -/
def dlookup [DecidableEq κ] : List (κ × ν) → κ → Option ν
  | [], _ => none
  | (k, v) :: rest, key => if k = key then some v else dlookup rest key

/-- `k in d` membership test. -/
def dcontains [DecidableEq κ] (d : List (κ × ν)) (k : κ) : Bool :=
  (dlookup d k).isSome

/-- Counter read with default 0 (only applied where Python guarantees the key). -/
def dget [DecidableEq κ] (d : List (κ × Nat)) (k : κ) : Nat :=
  (dlookup d k).getD 0

/-- List-valued read with default `[]` (defaultdict(list) access). -/
def dgetL [DecidableEq κ] (d : List (κ × List ν)) (k : κ) : List ν :=
  (dlookup d k).getD []

/-- `d[k] = v` when `k` is already present: in-place update, position kept. -/
def dset [DecidableEq κ] : List (κ × ν) → κ → ν → List (κ × ν)
  | [], _, _ => []
  | (k, v) :: rest, key, val =>
    if k = key then (k, val) :: rest else (k, v) :: dset rest key val

/-- `d[k] += 1` for a key known to be present. -/
def dbump [DecidableEq κ] (d : List (κ × Nat)) (k : κ) : List (κ × Nat) :=
  dset d k (dget d k + 1)

/-- `if k not in d: d[k] = 0` followed by `d[k] += 1` (gold-count seeding). -/
def dseed [DecidableEq κ] (d : List (κ × Nat)) (k : κ) : List (κ × Nat) :=
  if dcontains d k then dbump d k else d ++ [(k, 1)]

/-- `d[k].append(b)` for a key known to be present (gold index building). -/
def dappendItem [DecidableEq κ] (d : List (κ × List ν)) (k : κ) (b : ν) :
    List (κ × List ν) :=
  dset d k (dgetL d k ++ [b])

/-- `defaultdict(list)`: `d[k].append(b)`, creating the key at the end if absent. -/
def dpush [DecidableEq κ] (d : List (κ × List ν)) (k : κ) (b : ν) :
    List (κ × List ν) :=
  if dcontains d k then dappendItem d k b else d ++ [(k, [b])]

/-! ### Basic dictionary lemmas -/

theorem dlookup_nil [DecidableEq κ] (k : κ) : dlookup ([] : List (κ × ν)) k = none := rfl

theorem dlookup_cons [DecidableEq κ] (p : κ × ν) (d : List (κ × ν)) (key : κ) :
    dlookup (p :: d) key = if p.1 = key then some p.2 else dlookup d key := rfl

theorem dcontains_iff_mem [DecidableEq κ] (d : List (κ × ν)) (k : κ) :
    dcontains d k = true ↔ k ∈ d.map Prod.fst := by
  induction d with
  | nil => simp [dcontains, dlookup]
  | cons p rest ih =>
    obtain ⟨k', v⟩ := p
    by_cases h : k' = k
    · subst h
      simp [dcontains, dlookup]
    · simp only [dcontains, dlookup, if_neg h, List.map_cons, List.mem_cons]
      rw [dcontains] at ih
      rw [ih]
      constructor
      · exact fun hm => Or.inr hm
      · rintro (hm | hm)
        · exact absurd hm.symm h
        · exact hm

theorem dlookup_eq_none_of_not_mem [DecidableEq κ] (d : List (κ × ν)) (k : κ)
    (h : k ∉ d.map Prod.fst) : dlookup d k = none := by
  have hc : dcontains d k = false := by
    cases hc : dcontains d k
    · rfl
    · exact absurd ((dcontains_iff_mem d k).mp hc) h
  rw [dcontains] at hc
  cases hl : dlookup d k
  · rfl
  · rw [hl] at hc; simp at hc

theorem dset_map_fst [DecidableEq κ] (d : List (κ × ν)) (k : κ) (v : ν) :
    (dset d k v).map Prod.fst = d.map Prod.fst := by
  induction d with
  | nil => rfl
  | cons p rest ih =>
    obtain ⟨k', v'⟩ := p
    by_cases h : k' = k
    · simp [dset, h]
    · simp [dset, h, ih]

theorem dlookup_dset_self [DecidableEq κ] (d : List (κ × ν)) (k : κ) (v : ν)
    (h : dcontains d k = true) : dlookup (dset d k v) k = some v := by
  induction d with
  | nil => simp [dcontains, dlookup] at h
  | cons p rest ih =>
    obtain ⟨k', v'⟩ := p
    by_cases hk : k' = k
    · simp [dset, hk, dlookup]
    · simp only [dcontains, dlookup, if_neg hk] at h
      simp only [dset, if_neg hk, dlookup, if_neg hk]
      exact ih h

theorem dlookup_dset_ne [DecidableEq κ] (d : List (κ × ν)) (k k' : κ) (v : ν)
    (h : k' ≠ k) : dlookup (dset d k v) k' = dlookup d k' := by
  induction d with
  | nil => rfl
  | cons p rest ih =>
    obtain ⟨k0, v0⟩ := p
    by_cases hk : k0 = k
    · subst hk
      have hne : k0 ≠ k' := fun hh => h hh.symm
      simp [dset, dlookup, if_neg hne]
    · simp [dset, hk, dlookup, ih]

theorem dset_of_not_contains [DecidableEq κ] (d : List (κ × ν)) (k : κ) (v : ν)
    (h : dcontains d k = false) : dset d k v = d := by
  induction d with
  | nil => rfl
  | cons p rest ih =>
    obtain ⟨k', v'⟩ := p
    by_cases hk : k' = k
    · subst hk
      simp [dcontains, dlookup] at h
    · simp only [dcontains, dlookup, if_neg hk] at h
      simp [dset, hk, ih h]

theorem dcontains_dset [DecidableEq κ] (d : List (κ × ν)) (k k' : κ) (v : ν) :
    dcontains (dset d k v) k' = dcontains d k' := by
  rw [dcontains, dcontains]
  by_cases hk : k' = k
  · subst hk
    cases hc : dcontains d k'
    · rw [dset_of_not_contains d k' v hc]
    · rw [dlookup_dset_self d k' v hc]
      rw [dcontains] at hc
      cases hl : dlookup d k'
      · rw [hl] at hc; simp at hc
      · simp
  · rw [dlookup_dset_ne d k k' v hk]

theorem dget_dbump_self [DecidableEq κ] (d : List (κ × Nat)) (k : κ)
    (h : dcontains d k = true) : dget (dbump d k) k = dget d k + 1 := by
  rw [dbump, dget, dlookup_dset_self d k _ h]
  rfl

theorem dget_dbump_ne [DecidableEq κ] (d : List (κ × Nat)) (k k' : κ)
    (h : k' ≠ k) : dget (dbump d k) k' = dget d k' := by
  rw [dbump, dget, dlookup_dset_ne d k k' _ h, dget]

theorem dcontains_dbump [DecidableEq κ] (d : List (κ × Nat)) (k k' : κ) :
    dcontains (dbump d k) k' = dcontains d k' := by
  rw [dbump, dcontains_dset]

theorem dget_le_dget_dbump [DecidableEq κ] (d : List (κ × Nat)) (k k' : κ) :
    dget d k' ≤ dget (dbump d k) k' := by
  by_cases h : k' = k
  · subst h
    cases hc : dcontains d k'
    · rw [dbump, dset_of_not_contains d k' _ hc]
    · rw [dget_dbump_self d k' hc]
      exact Nat.le_succ _
  · rw [dget_dbump_ne d k k' h]

/-! ### Data model (calculate_metrics.py, field names kept) -/

/-- An NER entity; its exact-match identity is the whole 5-field record
(lines 67-73 / 91-95 of calculate_metrics.py build the 5-tuple). -/
structure Entity where
  start_idx : Int
  end_idx : Int
  location : String
  text_span : String
  label : String
deriving DecidableEq, Repr

/-- A binary-tag relation (subtask 6.2.1): subject and object entity labels. -/
structure BinRel where
  subject_label : String
  object_label : String
deriving DecidableEq, Repr

/-- A ternary-tag relation (subtask 6.2.2). -/
structure TernRel where
  subject_label : String
  predicate : String
  object_label : String
deriving DecidableEq, Repr

/-- A ternary mention-based relation (subtask 6.2.3 and the ensemble voter). -/
structure MentionRel where
  subject_text_span : String
  subject_label : String
  predicate : String
  object_text_span : String
  object_label : String
deriving DecidableEq, Repr

/-- A document of the ground-truth / prediction JSON: the four per-task
item lists, keyed in Python by the field names used here. -/
structure Article where
  entities : List Entity := []
  binary_tag_based_relations : List BinRel := []
  ternary_tag_based_relations : List TernRel := []
  ternary_mention_based_relations : List MentionRel := []
deriving DecidableEq, Repr

/-- The six-field metrics result returned by every evaluation routine
(return order of the Python functions: macro triple then micro triple). -/
structure SixMetrics where
  macroPrecision : ℚ
  macroRecall : ℚ
  macroF1 : ℚ
  microPrecision : ℚ
  microRecall : ℚ
  microF1 : ℚ
deriving DecidableEq, Repr

/-- The exceptions the evaluation code can raise:
`illegalLabel pmid v` embeds the NameError naming the document and the
offending value; `missingDocKey pmid` the KeyError from indexing the gold
dict with an unknown document id; `tpCounterKey pmid` the KeyError that
`count_true_positives_per_label[label] += 1` would raise for an unseeded
key; `zeroDivision` the ZeroDivisionError of `precision / n` when the
ground truth seeded no label at all. -/
inductive EvalError where
  | illegalLabel (pmid : String) (value : String)
  | missingDocKey (pmid : String)
  | tpCounterKey (pmid : String)
  | zeroDivision
deriving DecidableEq, Repr

/-! ### Ground-truth indexing (the first loop of each evaluation routine) -/

/-- The gold-indexing loop shared (textually duplicated) by all four
routines: per document ensure an (initially empty) entry list, then append
each item's exact-match entry (`toEntry`) and seed the annotated counter at
its counting key (`toKey`).  NER: lines 63-78; 6.2.1: 148-160;
6.2.2: 232-245; 6.2.3: 321-337. -/
def buildGoldIndex [DecidableEq κ] [DecidableEq β] (toEntry : item → β) (toKey : β → κ)
    (docs : List (String × List item)) : List (String × List β) × List (κ × Nat) :=
  docs.foldl
    (fun acc doc =>
      let g0 := if dcontains acc.1 doc.1 then acc.1 else acc.1 ++ [(doc.1, [])]
      doc.2.foldl
        (fun acc2 it =>
          let e := toEntry it
          (dappendItem acc2.1 doc.1 e, dseed acc2.2 (toKey e)))
        (g0, acc.2))
    ([], [])

/-! ### The per-item scoring tail shared by the four prediction loops -/

/-- The counting tail each prediction loop runs after validation:
conditionally increment the predicted counter at the counting key `k`
(only when `k` was pre-seeded), index the gold dict with the document id
(KeyError if absent), and increment the true-positive counter at `k`
iff the exact-match entry is in the document's gold list
(`count_true_positives_per_label[label] += 1` raising KeyError if `k`
is not a key).  NER: lines 102-107; 6.2.1: 184-189; 6.2.2: 273-278;
6.2.3: 367-374 of calculate_metrics.py. -/
def tallyItem [DecidableEq κ] [DecidableEq β] (pmid : String)
    (gold : List (String × List β)) (entry : β) (k : κ)
    (pred tp : List (κ × Nat)) :
    Except EvalError (List (κ × Nat) × List (κ × Nat)) :=
  let pred' := if dcontains pred k then dbump pred k else pred
  match dlookup gold pmid with
  | none => .error (.missingDocKey pmid)
  | some gl =>
    if entry ∈ gl then
      if dcontains tp k then .ok (pred', dbump tp k) else .error (.tpCounterKey pmid)
    else .ok (pred', tp)

/-- One predicted NER entity (lines 89-107): validate the label against
the legal entity vocabulary, then score with the full 5-field entity as
exact-match entry and its label as counting key. -/
def NERstep (legal : List String) (gold : List (String × List Entity))
    (pmid : String) (e : Entity)
    (st : List (String × Nat) × List (String × Nat)) :
    Except EvalError (List (String × Nat) × List (String × Nat)) :=
  if e.label ∉ legal then .error (.illegalLabel pmid e.label)
  else tallyItem pmid gold e e.label st.1 st.2

/-- One predicted binary-tag relation (lines 171-189): validate subject
then object label; entry and counting key are both the label pair. -/
def RE621step (legalE : List String) (gold : List (String × List (String × String)))
    (pmid : String) (r : BinRel)
    (st : List ((String × String) × Nat) × List ((String × String) × Nat)) :
    Except EvalError (List ((String × String) × Nat) × List ((String × String) × Nat)) :=
  if r.subject_label ∉ legalE then .error (.illegalLabel pmid r.subject_label)
  else if r.object_label ∉ legalE then .error (.illegalLabel pmid r.object_label)
  else tallyItem pmid gold (r.subject_label, r.object_label)
    (r.subject_label, r.object_label) st.1 st.2

/-- One predicted ternary-tag relation (lines 256-278): validate subject
label, object label, then predicate; entry and counting key are the triple. -/
def RE622step (legalE legalR : List String)
    (gold : List (String × List (String × String × String)))
    (pmid : String) (r : TernRel)
    (st : List ((String × String × String) × Nat) × List ((String × String × String) × Nat)) :
    Except EvalError
      (List ((String × String × String) × Nat) × List ((String × String × String) × Nat)) :=
  if r.subject_label ∉ legalE then .error (.illegalLabel pmid r.subject_label)
  else if r.object_label ∉ legalE then .error (.illegalLabel pmid r.object_label)
  else if r.predicate ∉ legalR then .error (.illegalLabel pmid r.predicate)
  else tallyItem pmid gold (r.subject_label, r.predicate, r.object_label)
    (r.subject_label, r.predicate, r.object_label) st.1 st.2

/-- One predicted mention-based relation (lines 348-374): validate subject
label, object label, then predicate; the exact-match entry is the whole
5-field relation while the counting key is the label-only triple. -/
def RE623step (legalE legalR : List String)
    (gold : List (String × List MentionRel))
    (pmid : String) (r : MentionRel)
    (st : List ((String × String × String) × Nat) × List ((String × String × String) × Nat)) :
    Except EvalError
      (List ((String × String × String) × Nat) × List ((String × String × String) × Nat)) :=
  if r.subject_label ∉ legalE then .error (.illegalLabel pmid r.subject_label)
  else if r.object_label ∉ legalE then .error (.illegalLabel pmid r.object_label)
  else if r.predicate ∉ legalR then .error (.illegalLabel pmid r.predicate)
  else tallyItem pmid gold r (r.subject_label, r.predicate, r.object_label) st.1 st.2

/-- The prediction double loop (`for pmid in predictions` / `for item in
items`), threading the counter pair through the per-item step. -/
def evalDocs (stepFn : String → item → σ → Except EvalError σ)
    (preds : List (String × List item)) (init : σ) : Except EvalError σ :=
  preds.foldlM (fun st doc => doc.2.foldlM (fun st2 it => stepFn doc.1 it st2) st) init

/-! ### Aggregation (identical tail of the four routines) -/

/-- The smoothing constant 1e-10 of the Python source, as an exact rational. -/
def eps : ℚ := 1 / 10000000000

/-- The aggregation tail every routine ends with (NER: lines 109-138):
pooled counts over the gold-seeded keys, epsilon-smoothed micro metrics,
and the macro loop accumulating per-label precision / recall / F1 sums
together with the label count `n`, finally divided by `n`
(ZeroDivisionError when no label was seeded). -/
def aggregateMetrics [DecidableEq κ] (annot pred tp : List (κ × Nat)) :
    Except EvalError SixMetrics :=
  let keys := annot.map Prod.fst
  let countAnn : Nat := (keys.map (fun l => dget annot l)).sum
  let countPred : Nat := (keys.map (fun l => dget pred l)).sum
  let countTP : Nat := (keys.map (fun l => dget tp l)).sum
  let microP : ℚ := (countTP : ℚ) / ((countPred : ℚ) + eps)
  let microR : ℚ := (countTP : ℚ) / ((countAnn : ℚ) + eps)
  let microF1 : ℚ := 2 * ((microP * microR) / (microP + microR + eps))
  let acc := keys.foldl
    (fun (a : ℚ × ℚ × ℚ × Nat) l =>
      let cp : ℚ := (dget tp l : ℚ) / ((dget pred l : ℚ) + eps)
      let cr : ℚ := (dget tp l : ℚ) / ((dget annot l : ℚ) + eps)
      (a.1 + cp, a.2.1 + cr, a.2.2.1 + 2 * ((cp * cr) / (cp + cr + eps)), a.2.2.2 + 1))
    (0, 0, 0, 0)
  if acc.2.2.2 = 0 then .error .zeroDivision
  else .ok ⟨acc.1 / (acc.2.2.2 : ℚ), acc.2.1 / (acc.2.2.2 : ℚ), acc.2.2.1 / (acc.2.2.2 : ℚ),
    microP, microR, microF1⟩

/-! ### The four evaluation routines -/

/-- The counting phase of `NER_evaluation` (lines 57-107): legal labels are
the entity vocabulary with the reserved first element dropped
(`load_entity_labels()[1:]`), counters are zero-initialized from the
gold-seeded keys, and predictions are scored document by document.
Returns (annotated, predicted, true-positive) counters. -/
def NER_counts (gt preds : List (String × Article)) (entityLabelsAll : List String) :
    Except EvalError
      (List (String × Nat) × List (String × Nat) × List (String × Nat)) :=
  let legal := entityLabelsAll.drop 1
  let built := buildGoldIndex (fun e : Entity => e) Entity.label
    (gt.map (fun d => (d.1, d.2.entities)))
  let pred0 := built.2.map (fun p => (p.1, 0))
  let tp0 := built.2.map (fun p => (p.1, 0))
  match evalDocs (NERstep legal built.1) (preds.map (fun d => (d.1, d.2.entities)))
      (pred0, tp0) with
  | .error e => .error e
  | .ok st => .ok (built.2, st.1, st.2)

/-- `NER_evaluation` (lines 57-138): counting phase then aggregation. -/
def NER_evaluation (gt preds : List (String × Article)) (entityLabelsAll : List String) :
    Except EvalError SixMetrics :=
  match NER_counts gt preds entityLabelsAll with
  | .error e => .error e
  | .ok t => aggregateMetrics t.1 t.2.1 t.2.2

/-- The counting phase of `RE_evaluation_subtask_621` (lines 141-189). -/
def RE621_counts (gt preds : List (String × Article)) (entityLabelsAll : List String) :
    Except EvalError
      (List ((String × String) × Nat) × List ((String × String) × Nat)
        × List ((String × String) × Nat)) :=
  let legalE := entityLabelsAll.drop 1
  let built := buildGoldIndex
    (fun r : BinRel => (r.subject_label, r.object_label)) (fun l => l)
    (gt.map (fun d => (d.1, d.2.binary_tag_based_relations)))
  let pred0 := built.2.map (fun p => (p.1, 0))
  let tp0 := built.2.map (fun p => (p.1, 0))
  match evalDocs (RE621step legalE built.1)
      (preds.map (fun d => (d.1, d.2.binary_tag_based_relations))) (pred0, tp0) with
  | .error e => .error e
  | .ok st => .ok (built.2, st.1, st.2)

/-- `RE_evaluation_subtask_621` (lines 141-220). -/
def RE_evaluation_subtask_621 (gt preds : List (String × Article))
    (entityLabelsAll : List String) : Except EvalError SixMetrics :=
  match RE621_counts gt preds entityLabelsAll with
  | .error e => .error e
  | .ok t => aggregateMetrics t.1 t.2.1 t.2.2

/-- The counting phase of `RE_evaluation_subtask_622` (lines 223-278); both
vocabularies are consumed with their reserved first element dropped. -/
def RE622_counts (gt preds : List (String × Article))
    (entityLabelsAll relationLabelsAll : List String) :
    Except EvalError
      (List ((String × String × String) × Nat) × List ((String × String × String) × Nat)
        × List ((String × String × String) × Nat)) :=
  let legalE := entityLabelsAll.drop 1
  let legalR := relationLabelsAll.drop 1
  let built := buildGoldIndex
    (fun r : TernRel => (r.subject_label, r.predicate, r.object_label)) (fun l => l)
    (gt.map (fun d => (d.1, d.2.ternary_tag_based_relations)))
  let pred0 := built.2.map (fun p => (p.1, 0))
  let tp0 := built.2.map (fun p => (p.1, 0))
  match evalDocs (RE622step legalE legalR built.1)
      (preds.map (fun d => (d.1, d.2.ternary_tag_based_relations))) (pred0, tp0) with
  | .error e => .error e
  | .ok st => .ok (built.2, st.1, st.2)

/-- `RE_evaluation_subtask_622` (lines 223-309). -/
def RE_evaluation_subtask_622 (gt preds : List (String × Article))
    (entityLabelsAll relationLabelsAll : List String) : Except EvalError SixMetrics :=
  match RE622_counts gt preds entityLabelsAll relationLabelsAll with
  | .error e => .error e
  | .ok t => aggregateMetrics t.1 t.2.1 t.2.2

/-- The counting phase of `RE_evaluation_subtask_623` (lines 312-374): the
gold entries are the full 5-field relations, counters are keyed by the
label-only triple. -/
def RE623_counts (gt preds : List (String × Article))
    (entityLabelsAll relationLabelsAll : List String) :
    Except EvalError
      (List ((String × String × String) × Nat) × List ((String × String × String) × Nat)
        × List ((String × String × String) × Nat)) :=
  let legalE := entityLabelsAll.drop 1
  let legalR := relationLabelsAll.drop 1
  let built := buildGoldIndex (fun r : MentionRel => r)
    (fun r => (r.subject_label, r.predicate, r.object_label))
    (gt.map (fun d => (d.1, d.2.ternary_mention_based_relations)))
  let pred0 := built.2.map (fun p => (p.1, 0))
  let tp0 := built.2.map (fun p => (p.1, 0))
  match evalDocs (RE623step legalE legalR built.1)
      (preds.map (fun d => (d.1, d.2.ternary_mention_based_relations))) (pred0, tp0) with
  | .error e => .error e
  | .ok st => .ok (built.2, st.1, st.2)

/-- `RE_evaluation_subtask_623` (lines 312-405). -/
def RE_evaluation_subtask_623 (gt preds : List (String × Article))
    (entityLabelsAll relationLabelsAll : List String) : Except EvalError SixMetrics :=
  match RE623_counts gt preds entityLabelsAll relationLabelsAll with
  | .error e => .error e
  | .ok t => aggregateMetrics t.1 t.2.1 t.2.2

/-! ### compute_metrics dispatch (lines 7-54) -/

/-- What `compute_metrics` returns for `model_type == "re"`: either the
metrics dict built at lines 47-54, or - for an unmatched subtask - the
`ValueError` object that line 31 *returns* (it does not raise it). -/
inductive ComputeOutcome where
  | metricsDict (m : SixMetrics)
  | valueErrorObject (msg : String)
deriving DecidableEq, Repr

/-- The subtask dispatch of `compute_metrics` for `model_type == "re"`
(lines 18-31 and 47-54): known subtasks run their evaluation routine
(exceptions propagate); line 31 executes `return ValueError("No matching
subtask")`, a normal return carrying the exception object as a value. -/
def compute_metrics_re (subtask : String) (gt preds : List (String × Article))
    (entityLabelsAll relationLabelsAll : List String) :
    Except EvalError ComputeOutcome :=
  if subtask = "6.2.1" then
    (RE_evaluation_subtask_621 gt preds entityLabelsAll).map .metricsDict
  else if subtask = "6.2.2" then
    (RE_evaluation_subtask_622 gt preds entityLabelsAll relationLabelsAll).map .metricsDict
  else if subtask = "6.2.3" then
    (RE_evaluation_subtask_623 gt preds entityLabelsAll relationLabelsAll).map .metricsDict
  else .ok (.valueErrorObject "No matching subtask")

/-! ### Ensemble voter (re_ensemble_inference.py) -/

/-- The vote key of `perform_relation_level_inference` (lines 24-38): a
task-specific tuple headed by the paper id, or - for an unknown subtask -
the ValueError raised inside the relation loop (line 38). -/
def keyOf (subtask : String) (paperId : String) (r : MentionRel) :
    Except String (List String) :=
  if subtask = "6.2.1" then .ok [paperId, r.subject_label, r.object_label]
  else if subtask = "6.2.2" then
    .ok [paperId, r.subject_label, r.predicate, r.object_label]
  else if subtask = "6.2.3" then
    .ok [paperId, r.subject_text_span, r.subject_label, r.predicate,
      r.object_text_span, r.object_label]
  else .error ("Unsupported subtask: " ++ subtask)

/-- The vote-collection triple loop (lines 21-40): every relation of every
document of every model's prediction set is appended to
`relation_votes[key]` in traversal order. -/
def collectRelationVotes (subtask : String)
    (sets : List (List (String × List MentionRel))) :
    Except String (List (List String × List MentionRel)) :=
  sets.foldlM
    (fun votes mp =>
      mp.foldlM
        (fun v2 doc =>
          doc.2.foldlM
            (fun v3 r => (keyOf subtask doc.1 r).map (fun key => dpush v3 key r)) v2)
        votes)
    []

/-- Placeholder relation used only to express `votes[0]` as `headD`; every
vote list reachable from `collectRelationVotes` is nonempty. -/
def dummyRel : MentionRel := ⟨"", "", "", "", ""⟩

/-- `perform_relation_level_inference` (lines 16-51, in-memory return
path): collect votes, then keep - grouped under the paper id `key[0]` -
the first vote `votes[0]` of every key whose vote-list length reaches
`math.ceil(len(self.predictions) / 2)`. -/
def performRelationLevelInference (subtask : String)
    (sets : List (List (String × List MentionRel))) :
    Except String (List (String × List MentionRel)) :=
  match collectRelationVotes subtask sets with
  | .error e => .error e
  | .ok votes =>
    let thr := Nat.ceil ((sets.length : ℚ) / 2)
    .ok (votes.foldl
      (fun res kv =>
        if thr ≤ kv.2.length then dpush res (kv.1.headD "") (kv.2.headD dummyRel)
        else res)
      [])

/-! ### Generic fold lemmas -/

theorem except_bind_error {α β ε : Type} (e : ε) (f : α → Except ε β) :
    ((Except.error e : Except ε α) >>= f) = .error e := rfl

theorem except_bind_ok {α β ε : Type} (a : α) (f : α → Except ε β) :
    ((Except.ok a : Except ε α) >>= f) = f a := rfl

theorem except_pure {α ε : Type} (a : α) : (pure a : Except ε α) = .ok a := rfl

theorem foldlM_inv {σ α ε : Type} (P : σ → Prop) (f : σ → α → Except ε σ)
    (hf : ∀ s a s', P s → f s a = .ok s' → P s') :
    ∀ (xs : List α) (s s' : σ), P s → xs.foldlM f s = .ok s' → P s' := by
  intro xs
  induction xs with
  | nil =>
    intro s s' hP h
    rw [List.foldlM_nil, except_pure] at h
    cases h
    exact hP
  | cons a as ih =>
    intro s s' hP h
    rw [List.foldlM_cons] at h
    cases ha : f s a with
    | error e =>
      rw [ha, except_bind_error] at h
      cases h
    | ok s1 =>
      rw [ha, except_bind_ok] at h
      exact ih s1 s' (hf s a s1 hP ha) h

theorem foldlM_fail {σ α ε : Type} (f : σ → α → Except ε σ) (x : α)
    (hx : ∀ s, ∃ e, f s x = .error e) :
    ∀ (xs : List α), x ∈ xs → ∀ s, ∃ e, xs.foldlM f s = .error e := by
  intro xs
  induction xs with
  | nil => intro h; exact absurd h (List.not_mem_nil x)
  | cons a as ih =>
    intro hmem s
    rw [List.foldlM_cons]
    cases ha : f s a with
    | error e => exact ⟨e, by rw [except_bind_error]⟩
    | ok s1 =>
      rcases List.mem_cons.mp hmem with h | h
      · subst h
        obtain ⟨e, he⟩ := hx s
        rw [he] at ha
        cases ha
      · obtain ⟨e, he⟩ := ih h s1
        exact ⟨e, by rw [except_bind_ok, he]⟩

theorem foldlM_of_pure {σ α ε : Type} (g : σ → α → σ) (f : σ → α → Except ε σ)
    (hfg : ∀ s a, f s a = .ok (g s a)) :
    ∀ (xs : List α) (s : σ), xs.foldlM f s = .ok (xs.foldl g s) := by
  intro xs
  induction xs with
  | nil => intro s; rw [List.foldlM_nil]; rfl
  | cons a as ih =>
    intro s
    rw [List.foldlM_cons, hfg s a, except_bind_ok, List.foldl_cons]
    exact ih (g s a)

theorem foldl_inv_mem {σ α : Type} (P : σ → Prop) (f : σ → α → σ) :
    ∀ (xs : List α) (s : σ), P s → (∀ s' a, a ∈ xs → P s' → P (f s' a)) →
      P (xs.foldl f s) := by
  intro xs
  induction xs with
  | nil => intro s hP _; exact hP
  | cons a as ih =>
    intro s hP hf
    rw [List.foldl_cons]
    exact ih (f s a) (hf s a (List.mem_cons_self a as) hP)
      (fun s' b hb => hf s' b (List.mem_cons_of_mem a hb))

/-! ### Behaviour of the shared scoring tail -/

/-- On success, the true-positive counter is bumped at the counting key
iff the exact-match entry is in the document's gold list. -/
theorem tallyItem_tp_spec [DecidableEq κ] [DecidableEq β] {pmid : String}
    {gold : List (String × List β)} {entry : β} {k : κ}
    {pred tp pred' tp' : List (κ × Nat)} {gl : List β}
    (h : tallyItem pmid gold entry k pred tp = .ok (pred', tp'))
    (hg : dlookup gold pmid = some gl) :
    (entry ∈ gl → tp' = dbump tp k) ∧ (entry ∉ gl → tp' = tp) := by
  rw [tallyItem] at h
  rw [hg] at h
  dsimp only at h
  by_cases hm : entry ∈ gl
  · rw [if_pos hm] at h
    by_cases hc : dcontains tp k = true
    · rw [if_pos hc] at h
      cases h
      exact ⟨fun _ => rfl, fun hn => absurd hm hn⟩
    · rw [if_neg hc] at h
      cases h
  · rw [if_neg hm] at h
    cases h
    exact ⟨fun hin => absurd hin hm, fun _ => rfl⟩

/-- On success, the predicted counter is bumped at the counting key iff
that key was pre-seeded (is already present), else left untouched. -/
theorem tallyItem_pred_spec [DecidableEq κ] [DecidableEq β] {pmid : String}
    {gold : List (String × List β)} {entry : β} {k : κ}
    {pred tp pred' tp' : List (κ × Nat)}
    (h : tallyItem pmid gold entry k pred tp = .ok (pred', tp')) :
    (dcontains pred k = true → pred' = dbump pred k) ∧
      (dcontains pred k = false → pred' = pred) := by
  rw [tallyItem] at h
  cases hg : dlookup gold pmid with
  | none => rw [hg] at h; cases h
  | some gl =>
    rw [hg] at h
    dsimp only at h
    by_cases hm : entry ∈ gl
    · rw [if_pos hm] at h
      by_cases hc : dcontains tp k = true
      · rw [if_pos hc] at h
        cases h
        constructor
        · intro hp; rw [if_pos hp]
        · intro hp; rw [hp]; simp
      · rw [if_neg hc] at h
        cases h
    · rw [if_neg hm] at h
      cases h
      constructor
      · intro hp; rw [if_pos hp]
      · intro hp; rw [hp]; simp

/-- The documented state invariant of the scoring tail: the predicted and
true-positive counters keep identical key sets and the true-positive count
never overtakes the predicted count at any key. -/
def CounterInv [DecidableEq κ] (st : List (κ × Nat) × List (κ × Nat)) : Prop :=
  ∀ k', dcontains st.2 k' = dcontains st.1 k' ∧ dget st.2 k' ≤ dget st.1 k'

theorem tallyItem_inv [DecidableEq κ] [DecidableEq β] {pmid : String}
    {gold : List (String × List β)} {entry : β} {k : κ}
    {pred tp pred' tp' : List (κ × Nat)}
    (hinv : CounterInv (pred, tp))
    (h : tallyItem pmid gold entry k pred tp = .ok (pred', tp')) :
    CounterInv (pred', tp') := by
  rw [tallyItem] at h
  cases hg : dlookup gold pmid with
  | none => rw [hg] at h; cases h
  | some gl =>
    rw [hg] at h
    dsimp only at h
    by_cases hm : entry ∈ gl
    · rw [if_pos hm] at h
      by_cases hc : dcontains tp k = true
      · rw [if_pos hc] at h
        have hcp : dcontains pred k = true := by
          rw [← (hinv k).1]; exact hc
        rw [if_pos hcp] at h
        cases h
        intro k'
        refine ⟨?_, ?_⟩
        · rw [dcontains_dbump, dcontains_dbump]
          exact (hinv k').1
        · by_cases hk : k' = k
          · subst hk
            rw [dget_dbump_self tp k' hc, dget_dbump_self pred k' hcp]
            exact Nat.succ_le_succ (hinv k').2
          · rw [dget_dbump_ne tp k k' hk, dget_dbump_ne pred k k' hk]
            exact (hinv k').2
      · rw [if_neg hc] at h
        cases h
    · rw [if_neg hm] at h
      cases h
      intro k'
      by_cases hcp : dcontains pred k = true
      · rw [if_pos hcp]
        refine ⟨?_, ?_⟩
        · rw [dcontains_dbump]; exact (hinv k').1
        · exact le_trans (hinv k').2 (dget_le_dget_dbump pred k k')
      · rw [if_neg hcp]
        exact hinv k'

theorem NERstep_inv {legal : List String} {gold : List (String × List Entity)}
    {pmid : String} {e : Entity} {st st' : List (String × Nat) × List (String × Nat)}
    (hinv : CounterInv st) (h : NERstep legal gold pmid e st = .ok st') :
    CounterInv st' := by
  rw [NERstep] at h
  by_cases hv : e.label ∉ legal
  · rw [if_pos hv] at h; cases h
  · rw [if_neg hv] at h
    obtain ⟨p', t'⟩ := st'
    exact tallyItem_inv hinv h

theorem RE621step_inv {legalE : List String}
    {gold : List (String × List (String × String))} {pmid : String} {r : BinRel}
    {st st' : List ((String × String) × Nat) × List ((String × String) × Nat)}
    (hinv : CounterInv st) (h : RE621step legalE gold pmid r st = .ok st') :
    CounterInv st' := by
  rw [RE621step] at h
  by_cases hs : r.subject_label ∉ legalE
  · rw [if_pos hs] at h; cases h
  · rw [if_neg hs] at h
    by_cases ho : r.object_label ∉ legalE
    · rw [if_pos ho] at h; cases h
    · rw [if_neg ho] at h
      obtain ⟨p', t'⟩ := st'
      exact tallyItem_inv hinv h

theorem RE622step_inv {legalE legalR : List String}
    {gold : List (String × List (String × String × String))} {pmid : String} {r : TernRel}
    {st st' : List ((String × String × String) × Nat) × List ((String × String × String) × Nat)}
    (hinv : CounterInv st) (h : RE622step legalE legalR gold pmid r st = .ok st') :
    CounterInv st' := by
  rw [RE622step] at h
  by_cases hs : r.subject_label ∉ legalE
  · rw [if_pos hs] at h; cases h
  · rw [if_neg hs] at h
    by_cases ho : r.object_label ∉ legalE
    · rw [if_pos ho] at h; cases h
    · rw [if_neg ho] at h
      by_cases hp : r.predicate ∉ legalR
      · rw [if_pos hp] at h; cases h
      · rw [if_neg hp] at h
        obtain ⟨p', t'⟩ := st'
        exact tallyItem_inv hinv h

theorem RE623step_inv {legalE legalR : List String}
    {gold : List (String × List MentionRel)} {pmid : String} {r : MentionRel}
    {st st' : List ((String × String × String) × Nat) × List ((String × String × String) × Nat)}
    (hinv : CounterInv st) (h : RE623step legalE legalR gold pmid r st = .ok st') :
    CounterInv st' := by
  rw [RE623step] at h
  by_cases hs : r.subject_label ∉ legalE
  · rw [if_pos hs] at h; cases h
  · rw [if_neg hs] at h
    by_cases ho : r.object_label ∉ legalE
    · rw [if_pos ho] at h; cases h
    · rw [if_neg ho] at h
      by_cases hp : r.predicate ∉ legalR
      · rw [if_pos hp] at h; cases h
      · rw [if_neg hp] at h
        obtain ⟨p', t'⟩ := st'
        exact tallyItem_inv hinv h

theorem evalDocs_inv {σ item : Type} (P : σ → Prop)
    (stepFn : String → item → σ → Except EvalError σ)
    (hstep : ∀ pmid it s s', P s → stepFn pmid it s = .ok s' → P s') :
    ∀ (docs : List (String × List item)) (s s' : σ),
      P s → evalDocs stepFn docs s = .ok s' → P s' := by
  intro docs s s' hP h
  rw [evalDocs] at h
  refine foldlM_inv P _ ?_ docs s s' hP h
  intro s1 doc s2 hP1 hdoc
  exact foldlM_inv P _ (fun t it t' ht hh => hstep doc.1 it t t' ht hh) doc.2 s1 s2 hP1 hdoc

/-! ### Concrete example data used by witnesses and counterexamples -/

/-- Example entity used in witness instantiations. -/
def wEntity : Entity := ⟨0, 5, "title", "BRCA1", "Gene"⟩

/-- Example ground truth with one document and one item per task variant. -/
def wGT : List (String × Article) :=
  [("D1",
    { entities := [wEntity],
      binary_tag_based_relations := [⟨"Gene", "Chem"⟩],
      ternary_tag_based_relations := [⟨"Gene", "rel", "Chem"⟩],
      ternary_mention_based_relations := [⟨"s", "Gene", "rel", "o", "Chem"⟩] })]

/-- Example entity vocabulary; index 0 is the reserved placeholder. -/
def wLabelsE : List String := ["RESERVED", "Gene", "Chem"]

/-- Example relation vocabulary; index 0 is the reserved placeholder. -/
def wLabelsR : List String := ["RESERVED", "rel"]

/-! ### C1 -/

/-- C1: for every validated predicted item, in every task variant, the
true-positive counter is bumped at the item's counting key iff the item's
exact-match tuple occurs in that document's ground-truth list - the full
(start, end, location, text_span, label) entity for NER, the label pair
for 6.2.1, the label triple for 6.2.2, and the full 5-field relation for
6.2.3, whose counting key stays the label-only triple. -/
theorem claim1_tp_iff_exact_match :
    (∀ (legal : List String) (gold : List (String × List Entity)) (pmid : String)
        (e : Entity) (st : List (String × Nat) × List (String × Nat))
        (pred' tp' : List (String × Nat)) (gl : List Entity),
        NERstep legal gold pmid e st = .ok (pred', tp') →
        dlookup gold pmid = some gl →
        (e ∈ gl → tp' = dbump st.2 e.label) ∧ (e ∉ gl → tp' = st.2))
    ∧ (∀ (legalE : List String) (gold : List (String × List (String × String)))
        (pmid : String) (r : BinRel)
        (st : List ((String × String) × Nat) × List ((String × String) × Nat))
        (pred' tp' : List ((String × String) × Nat)) (gl : List (String × String)),
        RE621step legalE gold pmid r st = .ok (pred', tp') →
        dlookup gold pmid = some gl →
        ((r.subject_label, r.object_label) ∈ gl →
          tp' = dbump st.2 (r.subject_label, r.object_label)) ∧
        ((r.subject_label, r.object_label) ∉ gl → tp' = st.2))
    ∧ (∀ (legalE legalR : List String)
        (gold : List (String × List (String × String × String)))
        (pmid : String) (r : TernRel)
        (st : List ((String × String × String) × Nat) × List ((String × String × String) × Nat))
        (pred' tp' : List ((String × String × String) × Nat))
        (gl : List (String × String × String)),
        RE622step legalE legalR gold pmid r st = .ok (pred', tp') →
        dlookup gold pmid = some gl →
        ((r.subject_label, r.predicate, r.object_label) ∈ gl →
          tp' = dbump st.2 (r.subject_label, r.predicate, r.object_label)) ∧
        ((r.subject_label, r.predicate, r.object_label) ∉ gl → tp' = st.2))
    ∧ (∀ (legalE legalR : List String) (gold : List (String × List MentionRel))
        (pmid : String) (r : MentionRel)
        (st : List ((String × String × String) × Nat) × List ((String × String × String) × Nat))
        (pred' tp' : List ((String × String × String) × Nat)) (gl : List MentionRel),
        RE623step legalE legalR gold pmid r st = .ok (pred', tp') →
        dlookup gold pmid = some gl →
        (r ∈ gl → tp' = dbump st.2 (r.subject_label, r.predicate, r.object_label)) ∧
        (r ∉ gl → tp' = st.2)) := by
  refine ⟨?_, ?_, ?_, ?_⟩
  · intro legal gold pmid e st pred' tp' gl h hg
    rw [NERstep] at h
    by_cases hv : e.label ∉ legal
    · rw [if_pos hv] at h; cases h
    · rw [if_neg hv] at h
      exact tallyItem_tp_spec h hg
  · intro legalE gold pmid r st pred' tp' gl h hg
    rw [RE621step] at h
    by_cases hs : r.subject_label ∉ legalE
    · rw [if_pos hs] at h; cases h
    · rw [if_neg hs] at h
      by_cases ho : r.object_label ∉ legalE
      · rw [if_pos ho] at h; cases h
      · rw [if_neg ho] at h
        exact tallyItem_tp_spec h hg
  · intro legalE legalR gold pmid r st pred' tp' gl h hg
    rw [RE622step] at h
    by_cases hs : r.subject_label ∉ legalE
    · rw [if_pos hs] at h; cases h
    · rw [if_neg hs] at h
      by_cases ho : r.object_label ∉ legalE
      · rw [if_pos ho] at h; cases h
      · rw [if_neg ho] at h
        by_cases hp : r.predicate ∉ legalR
        · rw [if_pos hp] at h; cases h
        · rw [if_neg hp] at h
          exact tallyItem_tp_spec h hg
  · intro legalE legalR gold pmid r st pred' tp' gl h hg
    rw [RE623step] at h
    by_cases hs : r.subject_label ∉ legalE
    · rw [if_pos hs] at h; cases h
    · rw [if_neg hs] at h
      by_cases ho : r.object_label ∉ legalE
      · rw [if_pos ho] at h; cases h
      · rw [if_neg ho] at h
        by_cases hp : r.predicate ∉ legalR
        · rw [if_pos hp] at h; cases h
        · rw [if_neg hp] at h
          exact tallyItem_tp_spec h hg

/-- Witness for C1: the NER conjunct applied to one concrete matched entity. -/
theorem claim1_witness :
    (wEntity ∈ [wEntity] → [("Gene", 1)] = dbump [("Gene", 0)] wEntity.label) ∧
    (wEntity ∉ [wEntity] → ([("Gene", 1)] : List (String × Nat)) = [("Gene", 0)]) :=
  claim1_tp_iff_exact_match.1 ["Gene", "Chem"] [("D1", [wEntity])] "D1" wEntity
    ([("Gene", 0)], [("Gene", 0)]) [("Gene", 1)] [("Gene", 1)] [wEntity] rfl rfl

/-! ### C2 -/

/-- Ground truth for the C2 counterexample: one binary relation (A, B). -/
def c2GT : List (String × Article) :=
  [("D1", { binary_tag_based_relations := [⟨"A", "B"⟩] })]

/-- Predictions for the C2 counterexample: one legal but gold-absent pair (A, C). -/
def c2Preds : List (String × Article) :=
  [("D1", { binary_tag_based_relations := [⟨"A", "C"⟩] })]

/-- Entity vocabulary for the C2 counterexample; A, B, C are all legal. -/
def c2Labels : List String := ["RESERVED", "A", "B", "C"]

/-- C2 is false as stated: the prediction (A, C) is validated (both labels
legal), yet after the run the predicted counter has no entry for (A, C) at
all - the increment is skipped for a counting key that was not pre-seeded
from ground truth, rather than performed unconditionally. -/
theorem claim2_counterexample :
    RE621_counts c2GT c2Preds c2Labels =
      .ok ([(("A", "B"), 1)], [(("A", "B"), 0)], [(("A", "B"), 0)]) ∧
    dcontains [(("A", "B"), 0)] ("A", "C") = false ∧
    dget [(("A", "B"), 0)] ("A", "C") = 0 :=
  ⟨rfl, rfl, rfl⟩

/-- C2 amended: for every validated predicted item, in every task variant,
the predicted counter is bumped at the item's counting key iff that key is
present (pre-seeded from ground truth), and is left entirely untouched
otherwise - a legal but gold-absent combination is silently not counted. -/
theorem claim2_amended_pred_increment :
    (∀ (legal : List String) (gold : List (String × List Entity)) (pmid : String)
        (e : Entity) (st : List (String × Nat) × List (String × Nat))
        (pred' tp' : List (String × Nat)),
        NERstep legal gold pmid e st = .ok (pred', tp') →
        (dcontains st.1 e.label = true → pred' = dbump st.1 e.label) ∧
        (dcontains st.1 e.label = false → pred' = st.1))
    ∧ (∀ (legalE : List String) (gold : List (String × List (String × String)))
        (pmid : String) (r : BinRel)
        (st : List ((String × String) × Nat) × List ((String × String) × Nat))
        (pred' tp' : List ((String × String) × Nat)),
        RE621step legalE gold pmid r st = .ok (pred', tp') →
        (dcontains st.1 (r.subject_label, r.object_label) = true →
          pred' = dbump st.1 (r.subject_label, r.object_label)) ∧
        (dcontains st.1 (r.subject_label, r.object_label) = false → pred' = st.1))
    ∧ (∀ (legalE legalR : List String)
        (gold : List (String × List (String × String × String)))
        (pmid : String) (r : TernRel)
        (st : List ((String × String × String) × Nat) × List ((String × String × String) × Nat))
        (pred' tp' : List ((String × String × String) × Nat)),
        RE622step legalE legalR gold pmid r st = .ok (pred', tp') →
        (dcontains st.1 (r.subject_label, r.predicate, r.object_label) = true →
          pred' = dbump st.1 (r.subject_label, r.predicate, r.object_label)) ∧
        (dcontains st.1 (r.subject_label, r.predicate, r.object_label) = false → pred' = st.1))
    ∧ (∀ (legalE legalR : List String) (gold : List (String × List MentionRel))
        (pmid : String) (r : MentionRel)
        (st : List ((String × String × String) × Nat) × List ((String × String × String) × Nat))
        (pred' tp' : List ((String × String × String) × Nat)),
        RE623step legalE legalR gold pmid r st = .ok (pred', tp') →
        (dcontains st.1 (r.subject_label, r.predicate, r.object_label) = true →
          pred' = dbump st.1 (r.subject_label, r.predicate, r.object_label)) ∧
        (dcontains st.1 (r.subject_label, r.predicate, r.object_label) = false →
          pred' = st.1)) := by
  refine ⟨?_, ?_, ?_, ?_⟩
  · intro legal gold pmid e st pred' tp' h
    rw [NERstep] at h
    by_cases hv : e.label ∉ legal
    · rw [if_pos hv] at h; cases h
    · rw [if_neg hv] at h
      exact tallyItem_pred_spec h
  · intro legalE gold pmid r st pred' tp' h
    rw [RE621step] at h
    by_cases hs : r.subject_label ∉ legalE
    · rw [if_pos hs] at h; cases h
    · rw [if_neg hs] at h
      by_cases ho : r.object_label ∉ legalE
      · rw [if_pos ho] at h; cases h
      · rw [if_neg ho] at h
        exact tallyItem_pred_spec h
  · intro legalE legalR gold pmid r st pred' tp' h
    rw [RE622step] at h
    by_cases hs : r.subject_label ∉ legalE
    · rw [if_pos hs] at h; cases h
    · rw [if_neg hs] at h
      by_cases ho : r.object_label ∉ legalE
      · rw [if_pos ho] at h; cases h
      · rw [if_neg ho] at h
        by_cases hp : r.predicate ∉ legalR
        · rw [if_pos hp] at h; cases h
        · rw [if_neg hp] at h
          exact tallyItem_pred_spec h
  · intro legalE legalR gold pmid r st pred' tp' h
    rw [RE623step] at h
    by_cases hs : r.subject_label ∉ legalE
    · rw [if_pos hs] at h; cases h
    · rw [if_neg hs] at h
      by_cases ho : r.object_label ∉ legalE
      · rw [if_pos ho] at h; cases h
      · rw [if_neg ho] at h
        by_cases hp : r.predicate ∉ legalR
        · rw [if_pos hp] at h; cases h
        · rw [if_neg hp] at h
          exact tallyItem_pred_spec h

/-- Witness for the amended C2: the 6.2.1 conjunct applied to the concrete
unseeded prediction of the counterexample, showing the untouched branch. -/
theorem claim2_witness :
    (dcontains [(("A", "B"), 0)] (("A" : String), ("C" : String)) = true →
      [(("A", "B"), 0)] = dbump [(("A", "B"), 0)] ("A", "C")) ∧
    (dcontains [(("A", "B"), 0)] (("A" : String), ("C" : String)) = false →
      ([(("A", "B"), 0)] : List ((String × String) × Nat)) = [(("A", "B"), 0)]) :=
  claim2_amended_pred_increment.2.1 ["A", "B", "C"] [("D1", [("A", "B")])] "D1"
    ⟨"A", "C"⟩ ([(("A", "B"), 0)], [(("A", "B"), 0)]) [(("A", "B"), 0)]
    [(("A", "B"), 0)] rfl

/-! ### C5 -/

/-- C5: for every prediction input that completes evaluation without error,
in all four task variants, the final predicted count at every label key is
greater than or equal to the final true-positive count at that key. -/
theorem claim5_predicted_ge_true_positives :
    (∀ (gt preds : List (String × Article)) (labelsAll : List String)
        (annot pred tp : List (String × Nat)),
        NER_counts gt preds labelsAll = .ok (annot, pred, tp) →
        ∀ l, dget tp l ≤ dget pred l)
    ∧ (∀ (gt preds : List (String × Article)) (labelsAll : List String)
        (annot pred tp : List ((String × String) × Nat)),
        RE621_counts gt preds labelsAll = .ok (annot, pred, tp) →
        ∀ l, dget tp l ≤ dget pred l)
    ∧ (∀ (gt preds : List (String × Article)) (labelsE labelsR : List String)
        (annot pred tp : List ((String × String × String) × Nat)),
        RE622_counts gt preds labelsE labelsR = .ok (annot, pred, tp) →
        ∀ l, dget tp l ≤ dget pred l)
    ∧ (∀ (gt preds : List (String × Article)) (labelsE labelsR : List String)
        (annot pred tp : List ((String × String × String) × Nat)),
        RE623_counts gt preds labelsE labelsR = .ok (annot, pred, tp) →
        ∀ l, dget tp l ≤ dget pred l) := by
  refine ⟨?_, ?_, ?_, ?_⟩
  · intro gt preds labelsAll annot pred tp h
    rw [NER_counts] at h
    split at h
    · cases h
    · rename_i st hev
      cases h
      intro l
      exact ((evalDocs_inv CounterInv _
        (fun pmid it s s' hs hh => NERstep_inv hs hh) _ _ _
        (fun k => ⟨rfl, le_refl _⟩) hev) l).2
  · intro gt preds labelsAll annot pred tp h
    rw [RE621_counts] at h
    split at h
    · cases h
    · rename_i st hev
      cases h
      intro l
      exact ((evalDocs_inv CounterInv _
        (fun pmid it s s' hs hh => RE621step_inv hs hh) _ _ _
        (fun k => ⟨rfl, le_refl _⟩) hev) l).2
  · intro gt preds labelsE labelsR annot pred tp h
    rw [RE622_counts] at h
    split at h
    · cases h
    · rename_i st hev
      cases h
      intro l
      exact ((evalDocs_inv CounterInv _
        (fun pmid it s s' hs hh => RE622step_inv hs hh) _ _ _
        (fun k => ⟨rfl, le_refl _⟩) hev) l).2
  · intro gt preds labelsE labelsR annot pred tp h
    rw [RE623_counts] at h
    split at h
    · cases h
    · rename_i st hev
      cases h
      intro l
      exact ((evalDocs_inv CounterInv _
        (fun pmid it s s' hs hh => RE623step_inv hs hh) _ _ _
        (fun k => ⟨rfl, le_refl _⟩) hev) l).2

/-- Witness for C5: a concrete NER run whose counters realize the bound. -/
theorem claim5_witness :
    NER_counts wGT wGT wLabelsE = .ok ([("Gene", 1)], [("Gene", 1)], [("Gene", 1)]) ∧
    dget [("Gene", 1)] "Gene" ≤ dget [("Gene", 1)] "Gene" :=
  ⟨rfl, claim5_predicted_ge_true_positives.1 wGT wGT wLabelsE
    [("Gene", 1)] [("Gene", 1)] [("Gene", 1)] rfl "Gene"⟩

/-! ### Aggregation lemmas (for C3 and C4) -/

/-- Per-label smoothed precision (line 127 of calculate_metrics.py). -/
def labelPrecision [DecidableEq κ] (pred tp : List (κ × Nat)) (l : κ) : ℚ :=
  (dget tp l : ℚ) / ((dget pred l : ℚ) + eps)

/-- Per-label smoothed recall (line 128 of calculate_metrics.py). -/
def labelRecall [DecidableEq κ] (annot tp : List (κ × Nat)) (l : κ) : ℚ :=
  (dget tp l : ℚ) / ((dget annot l : ℚ) + eps)

/-- The smoothed F1 combination used throughout (lines 121 and 132). -/
def f1Smoothed (p r : ℚ) : ℚ := 2 * ((p * r) / (p + r + eps))

theorem macro_foldl_sum {κ : Type} (fP fR fF : κ → ℚ) :
    ∀ (keys : List κ) (a b c : ℚ) (n : Nat),
      keys.foldl (fun (acc : ℚ × ℚ × ℚ × Nat) l =>
        (acc.1 + fP l, acc.2.1 + fR l, acc.2.2.1 + fF l, acc.2.2.2 + 1)) (a, b, c, n)
        = (a + (keys.map fP).sum, b + (keys.map fR).sum, c + (keys.map fF).sum,
           n + keys.length) := by
  intro keys
  induction keys with
  | nil => intro a b c n; simp
  | cons x xs ih =>
    intro a b c n
    rw [List.foldl_cons, ih]
    simp only [List.map_cons, List.sum_cons, List.length_cons, Prod.mk.injEq]
    refine ⟨by ring, by ring, by ring, by omega⟩

/-- Full characterization of a successful aggregation: the label count is
nonzero and every field of the result is the corresponding closed-form
pooled or averaged expression over the gold-seeded keys. -/
theorem aggregateMetrics_spec {κ : Type} [DecidableEq κ]
    {annot pred tp : List (κ × Nat)} {m : SixMetrics}
    (h : aggregateMetrics annot pred tp = .ok m) :
    (annot.map Prod.fst).length ≠ 0 ∧
    m = { macroPrecision := ((annot.map Prod.fst).map (fun l => labelPrecision pred tp l)).sum
            / (((annot.map Prod.fst).length : Nat) : ℚ),
          macroRecall := ((annot.map Prod.fst).map (fun l => labelRecall annot tp l)).sum
            / (((annot.map Prod.fst).length : Nat) : ℚ),
          macroF1 := ((annot.map Prod.fst).map
              (fun l => f1Smoothed (labelPrecision pred tp l) (labelRecall annot tp l))).sum
            / (((annot.map Prod.fst).length : Nat) : ℚ),
          microPrecision := ((((annot.map Prod.fst).map (fun l => dget tp l)).sum : Nat) : ℚ)
            / (((((annot.map Prod.fst).map (fun l => dget pred l)).sum : Nat) : ℚ) + eps),
          microRecall := ((((annot.map Prod.fst).map (fun l => dget tp l)).sum : Nat) : ℚ)
            / (((((annot.map Prod.fst).map (fun l => dget annot l)).sum : Nat) : ℚ) + eps),
          microF1 := 2 * ((
              (((((annot.map Prod.fst).map (fun l => dget tp l)).sum : Nat) : ℚ)
                / (((((annot.map Prod.fst).map (fun l => dget pred l)).sum : Nat) : ℚ) + eps))
              * (((((annot.map Prod.fst).map (fun l => dget tp l)).sum : Nat) : ℚ)
                / (((((annot.map Prod.fst).map (fun l => dget annot l)).sum : Nat) : ℚ) + eps)))
            / ((((((annot.map Prod.fst).map (fun l => dget tp l)).sum : Nat) : ℚ)
                / (((((annot.map Prod.fst).map (fun l => dget pred l)).sum : Nat) : ℚ) + eps))
              + (((((annot.map Prod.fst).map (fun l => dget tp l)).sum : Nat) : ℚ)
                / (((((annot.map Prod.fst).map (fun l => dget annot l)).sum : Nat) : ℚ) + eps))
              + eps)) } := by
  rw [aggregateMetrics] at h
  rw [macro_foldl_sum
    (fun l => (dget tp l : ℚ) / ((dget pred l : ℚ) + eps))
    (fun l => (dget tp l : ℚ) / ((dget annot l : ℚ) + eps))
    (fun l => 2 * ((((dget tp l : ℚ) / ((dget pred l : ℚ) + eps))
        * ((dget tp l : ℚ) / ((dget annot l : ℚ) + eps)))
      / (((dget tp l : ℚ) / ((dget pred l : ℚ) + eps))
        + ((dget tp l : ℚ) / ((dget annot l : ℚ) + eps)) + eps)))] at h
  dsimp only at h
  split at h
  · cases h
  · rename_i hn
    cases h
    refine ⟨by simpa using hn, ?_⟩
    simp only [labelPrecision, labelRecall, f1Smoothed, zero_add, Nat.zero_add]

/-! ### C3 -/

/-- C3: for every counter configuration accepted by the shared aggregation
tail - and each of the four evaluation routines is exactly its counting
phase piped into that tail - micro precision is pooled TP over pooled
predicted plus epsilon, micro recall is pooled TP over pooled annotated
plus epsilon, and micro F1 is 2(PR)/(P+R+epsilon); the epsilon appears
additively in denominators only. -/
theorem claim3_micro_formulas :
    (∀ {κ : Type} [DecidableEq κ] (annot pred tp : List (κ × Nat)) (m : SixMetrics),
        aggregateMetrics annot pred tp = .ok m →
        m.microPrecision = ((((annot.map Prod.fst).map (fun l => dget tp l)).sum : Nat) : ℚ)
            / (((((annot.map Prod.fst).map (fun l => dget pred l)).sum : Nat) : ℚ) + eps) ∧
        m.microRecall = ((((annot.map Prod.fst).map (fun l => dget tp l)).sum : Nat) : ℚ)
            / (((((annot.map Prod.fst).map (fun l => dget annot l)).sum : Nat) : ℚ) + eps) ∧
        m.microF1 = 2 * ((m.microPrecision * m.microRecall)
            / (m.microPrecision + m.microRecall + eps)))
    ∧ (∀ (gt preds : List (String × Article)) (labelsAll : List String)
        (t : List (String × Nat) × List (String × Nat) × List (String × Nat)),
        NER_counts gt preds labelsAll = .ok t →
        NER_evaluation gt preds labelsAll = aggregateMetrics t.1 t.2.1 t.2.2)
    ∧ (∀ (gt preds : List (String × Article)) (labelsAll : List String)
        (t : List ((String × String) × Nat) × List ((String × String) × Nat)
          × List ((String × String) × Nat)),
        RE621_counts gt preds labelsAll = .ok t →
        RE_evaluation_subtask_621 gt preds labelsAll = aggregateMetrics t.1 t.2.1 t.2.2)
    ∧ (∀ (gt preds : List (String × Article)) (labelsE labelsR : List String)
        (t : List ((String × String × String) × Nat) × List ((String × String × String) × Nat)
          × List ((String × String × String) × Nat)),
        RE622_counts gt preds labelsE labelsR = .ok t →
        RE_evaluation_subtask_622 gt preds labelsE labelsR = aggregateMetrics t.1 t.2.1 t.2.2)
    ∧ (∀ (gt preds : List (String × Article)) (labelsE labelsR : List String)
        (t : List ((String × String × String) × Nat) × List ((String × String × String) × Nat)
          × List ((String × String × String) × Nat)),
        RE623_counts gt preds labelsE labelsR = .ok t →
        RE_evaluation_subtask_623 gt preds labelsE labelsR = aggregateMetrics t.1 t.2.1 t.2.2) := by
  refine ⟨?_, ?_, ?_, ?_, ?_⟩
  · intro κ _ annot pred tp m h
    obtain ⟨hn, hm⟩ := aggregateMetrics_spec h
    subst hm
    exact ⟨rfl, rfl, rfl⟩
  · intro gt preds labelsAll t h
    rw [NER_evaluation, h]
  · intro gt preds labelsAll t h
    rw [RE_evaluation_subtask_621, h]
  · intro gt preds labelsE labelsR t h
    rw [RE_evaluation_subtask_622, h]
  · intro gt preds labelsE labelsR t h
    rw [RE_evaluation_subtask_623, h]

/-- Smoothed value 1/(1+eps) arising from a single exactly-matched item. -/
def wp : ℚ := 1 / (1 + eps)

/-- Smoothed F1 of two copies of `wp`. -/
def wf1 : ℚ := 2 * ((wp * wp) / (wp + wp + eps))

/-- The six metrics of the one-label, one-match counter configuration. -/
def wAgg : SixMetrics := ⟨wp, wp, wf1, wp, wp, wf1⟩

/-- Witness for C3: the aggregation of the one-label configuration, with
its micro F1 equal to the smoothed harmonic combination. -/
theorem claim3_witness :
    aggregateMetrics [(("G" : String), 1)] [("G", 1)] [("G", 1)] = .ok wAgg ∧
    wAgg.microF1 = 2 * ((wAgg.microPrecision * wAgg.microRecall)
      / (wAgg.microPrecision + wAgg.microRecall + eps)) := by
  have h : aggregateMetrics [(("G" : String), 1)] [("G", 1)] [("G", 1)] = .ok wAgg := by
    rw [aggregateMetrics]
    norm_num [dget, dlookup, wAgg, wp, wf1]
  exact ⟨h, (claim3_micro_formulas.1 _ _ _ _ h).2.2⟩

/-! ### C4 -/

theorem dseed_keys_nodup [DecidableEq κ] (d : List (κ × Nat)) (k : κ)
    (h : (d.map Prod.fst).Nodup) : ((dseed d k).map Prod.fst).Nodup := by
  rw [dseed]
  by_cases hc : dcontains d k = true
  · rw [if_pos hc, dbump, dset_map_fst]
    exact h
  · rw [if_neg hc, List.map_append]
    refine List.Nodup.append h (List.nodup_singleton k) ?_
    intro a ha hb
    simp only [List.map_cons, List.map_nil, List.mem_singleton] at hb
    subst hb
    exact hc ((dcontains_iff_mem d a).mpr ha)

theorem buildGoldIndex_annot_keys_nodup {κ β item : Type} [DecidableEq κ] [DecidableEq β]
    (toEntry : item → β) (toKey : β → κ) (docs : List (String × List item)) :
    (((buildGoldIndex toEntry toKey docs).2).map Prod.fst).Nodup := by
  rw [buildGoldIndex]
  refine foldl_inv_mem
    (fun s : List (String × List β) × List (κ × Nat) => (s.2.map Prod.fst).Nodup)
    _ docs ([], []) ?_ ?_
  · simp
  · intro s doc hmem hP
    dsimp only
    refine foldl_inv_mem
      (fun s2 : List (String × List β) × List (κ × Nat) => (s2.2.map Prod.fst).Nodup)
      _ doc.2 _ ?_ ?_
    · exact hP
    · intro s2 it hmem2 hP2
      exact dseed_keys_nodup s2.2 _ hP2

/-- C4: for every accepted counter configuration, macro precision, recall
and F1 are each the unweighted arithmetic mean, over exactly the keys the
ground truth seeded (a duplicate-free list, so a set), of the per-label
smoothed precision, recall and F1; in particular macro F1 averages the
per-label F1 values rather than combining macro precision and recall. -/
theorem claim4_macro_means :
    (∀ {κ : Type} [DecidableEq κ] (annot pred tp : List (κ × Nat)) (m : SixMetrics),
        aggregateMetrics annot pred tp = .ok m →
        m.macroPrecision = ((annot.map Prod.fst).map (fun l => labelPrecision pred tp l)).sum
          / (((annot.map Prod.fst).length : Nat) : ℚ) ∧
        m.macroRecall = ((annot.map Prod.fst).map (fun l => labelRecall annot tp l)).sum
          / (((annot.map Prod.fst).length : Nat) : ℚ) ∧
        m.macroF1 = ((annot.map Prod.fst).map
            (fun l => f1Smoothed (labelPrecision pred tp l) (labelRecall annot tp l))).sum
          / (((annot.map Prod.fst).length : Nat) : ℚ))
    ∧ (∀ {κ β item : Type} [DecidableEq κ] [DecidableEq β] (toEntry : item → β)
        (toKey : β → κ) (docs : List (String × List item)),
        (((buildGoldIndex toEntry toKey docs).2).map Prod.fst).Nodup) := by
  refine ⟨?_, ?_⟩
  · intro κ _ annot pred tp m h
    obtain ⟨hn, hm⟩ := aggregateMetrics_spec h
    subst hm
    exact ⟨rfl, rfl, rfl⟩
  · intro κ β item _ _ toEntry toKey docs
    exact buildGoldIndex_annot_keys_nodup toEntry toKey docs

/-- Witness for C4: the one-label configuration, whose macro F1 is the
mean of the (single) per-label F1 value. -/
theorem claim4_witness :
    aggregateMetrics [(("G" : String), 1)] [("G", 1)] [("G", 1)] = .ok wAgg ∧
    wAgg.macroF1 = (([(("G" : String), 1)].map Prod.fst).map
        (fun l => f1Smoothed (labelPrecision [(("G" : String), 1)] [("G", 1)] l)
          (labelRecall [(("G" : String), 1)] [("G", 1)] l))).sum
      / ((([(("G" : String), 1)].map Prod.fst).length : Nat) : ℚ) := by
  have h : aggregateMetrics [(("G" : String), 1)] [("G", 1)] [("G", 1)] = .ok wAgg := by
    rw [aggregateMetrics]
    norm_num [dget, dlookup, wAgg, wp, wf1]
  exact ⟨h, (claim4_macro_means.1 _ _ _ _ h).2.2⟩

/-! ### Failure propagation lemmas (for C6 and C7) -/

theorem evalDocs_fail {σ item : Type} (stepFn : String → item → σ → Except EvalError σ)
    (preds : List (String × List item)) (pmid : String) (items : List item) (x : item)
    (hmem : (pmid, items) ∈ preds) (hx : x ∈ items)
    (hfail : ∀ s, ∃ e, stepFn pmid x s = .error e) :
    ∀ init, ∃ e, evalDocs stepFn preds init = .error e := by
  intro init
  rw [evalDocs]
  refine foldlM_fail _ (pmid, items) ?_ preds hmem init
  intro s
  exact foldlM_fail (fun st2 it => stepFn pmid it st2) x hfail items hx s

theorem NERstep_illegal (legal : List String) (gold : List (String × List Entity))
    (pmid : String) (e : Entity) (st : List (String × Nat) × List (String × Nat))
    (hv : e.label ∉ legal) :
    NERstep legal gold pmid e st = .error (.illegalLabel pmid e.label) := by
  rw [NERstep, if_pos hv]

theorem RE621step_illegal (legalE : List String)
    (gold : List (String × List (String × String))) (pmid : String) (r : BinRel)
    (st : List ((String × String) × Nat) × List ((String × String) × Nat))
    (h : r.subject_label ∉ legalE ∨ r.object_label ∉ legalE) :
    ∃ v, (v = r.subject_label ∨ v = r.object_label) ∧ v ∉ legalE ∧
      RE621step legalE gold pmid r st = .error (.illegalLabel pmid v) := by
  by_cases hs : r.subject_label ∉ legalE
  · exact ⟨r.subject_label, Or.inl rfl, hs, by rw [RE621step, if_pos hs]⟩
  · have ho : r.object_label ∉ legalE := h.resolve_left hs
    exact ⟨r.object_label, Or.inr rfl, ho, by rw [RE621step, if_neg hs, if_pos ho]⟩

theorem RE622step_illegal (legalE legalR : List String)
    (gold : List (String × List (String × String × String))) (pmid : String) (r : TernRel)
    (st : List ((String × String × String) × Nat) × List ((String × String × String) × Nat))
    (h : r.subject_label ∉ legalE ∨ r.object_label ∉ legalE ∨ r.predicate ∉ legalR) :
    ∃ v, ((v = r.subject_label ∧ v ∉ legalE) ∨ (v = r.object_label ∧ v ∉ legalE)
        ∨ (v = r.predicate ∧ v ∉ legalR)) ∧
      RE622step legalE legalR gold pmid r st = .error (.illegalLabel pmid v) := by
  by_cases hs : r.subject_label ∉ legalE
  · exact ⟨r.subject_label, Or.inl ⟨rfl, hs⟩, by rw [RE622step, if_pos hs]⟩
  · by_cases ho : r.object_label ∉ legalE
    · exact ⟨r.object_label, Or.inr (Or.inl ⟨rfl, ho⟩),
        by rw [RE622step, if_neg hs, if_pos ho]⟩
    · have hp : r.predicate ∉ legalR := (h.resolve_left hs).resolve_left ho
      exact ⟨r.predicate, Or.inr (Or.inr ⟨rfl, hp⟩),
        by rw [RE622step, if_neg hs, if_neg ho, if_pos hp]⟩

theorem RE623step_illegal (legalE legalR : List String)
    (gold : List (String × List MentionRel)) (pmid : String) (r : MentionRel)
    (st : List ((String × String × String) × Nat) × List ((String × String × String) × Nat))
    (h : r.subject_label ∉ legalE ∨ r.object_label ∉ legalE ∨ r.predicate ∉ legalR) :
    ∃ v, ((v = r.subject_label ∧ v ∉ legalE) ∨ (v = r.object_label ∧ v ∉ legalE)
        ∨ (v = r.predicate ∧ v ∉ legalR)) ∧
      RE623step legalE legalR gold pmid r st = .error (.illegalLabel pmid v) := by
  by_cases hs : r.subject_label ∉ legalE
  · exact ⟨r.subject_label, Or.inl ⟨rfl, hs⟩, by rw [RE623step, if_pos hs]⟩
  · by_cases ho : r.object_label ∉ legalE
    · exact ⟨r.object_label, Or.inr (Or.inl ⟨rfl, ho⟩),
        by rw [RE623step, if_neg hs, if_pos ho]⟩
    · have hp : r.predicate ∉ legalR := (h.resolve_left hs).resolve_left ho
      exact ⟨r.predicate, Or.inr (Or.inr ⟨rfl, hp⟩),
        by rw [RE623step, if_neg hs, if_neg ho, if_pos hp]⟩

theorem NER_evaluation_fail {gt preds : List (String × Article)} {labelsAll : List String}
    (pmid : String) (art : Article) (e : Entity)
    (hmem : (pmid, art) ∈ preds) (hit : e ∈ art.entities)
    (hfail : ∀ s, ∃ err, NERstep (labelsAll.drop 1)
      (buildGoldIndex (fun x : Entity => x) Entity.label
        (gt.map (fun d => (d.1, d.2.entities)))).1 pmid e s = .error err) :
    ∃ err, NER_evaluation gt preds labelsAll = .error err := by
  obtain ⟨err, herr⟩ := evalDocs_fail
    (NERstep (labelsAll.drop 1)
      (buildGoldIndex (fun x : Entity => x) Entity.label
        (gt.map (fun d => (d.1, d.2.entities)))).1)
    (preds.map (fun d => (d.1, d.2.entities))) pmid art.entities e
    (List.mem_map_of_mem _ hmem) hit hfail
    ((buildGoldIndex (fun x : Entity => x) Entity.label
        (gt.map (fun d => (d.1, d.2.entities)))).2.map (fun p => (p.1, 0)),
     (buildGoldIndex (fun x : Entity => x) Entity.label
        (gt.map (fun d => (d.1, d.2.entities)))).2.map (fun p => (p.1, 0)))
  exact ⟨err, by rw [NER_evaluation, NER_counts, herr]⟩

theorem RE621_evaluation_fail {gt preds : List (String × Article)} {labelsAll : List String}
    (pmid : String) (art : Article) (r : BinRel)
    (hmem : (pmid, art) ∈ preds) (hit : r ∈ art.binary_tag_based_relations)
    (hfail : ∀ s, ∃ err, RE621step (labelsAll.drop 1)
      (buildGoldIndex (fun x : BinRel => (x.subject_label, x.object_label)) (fun l => l)
        (gt.map (fun d => (d.1, d.2.binary_tag_based_relations)))).1 pmid r s = .error err) :
    ∃ err, RE_evaluation_subtask_621 gt preds labelsAll = .error err := by
  obtain ⟨err, herr⟩ := evalDocs_fail
    (RE621step (labelsAll.drop 1)
      (buildGoldIndex (fun x : BinRel => (x.subject_label, x.object_label)) (fun l => l)
        (gt.map (fun d => (d.1, d.2.binary_tag_based_relations)))).1)
    (preds.map (fun d => (d.1, d.2.binary_tag_based_relations))) pmid
    art.binary_tag_based_relations r
    (List.mem_map_of_mem _ hmem) hit hfail
    ((buildGoldIndex (fun x : BinRel => (x.subject_label, x.object_label)) (fun l => l)
        (gt.map (fun d => (d.1, d.2.binary_tag_based_relations)))).2.map (fun p => (p.1, 0)),
     (buildGoldIndex (fun x : BinRel => (x.subject_label, x.object_label)) (fun l => l)
        (gt.map (fun d => (d.1, d.2.binary_tag_based_relations)))).2.map (fun p => (p.1, 0)))
  exact ⟨err, by rw [RE_evaluation_subtask_621, RE621_counts, herr]⟩

theorem RE622_evaluation_fail {gt preds : List (String × Article)}
    {labelsE labelsR : List String} (pmid : String) (art : Article) (r : TernRel)
    (hmem : (pmid, art) ∈ preds) (hit : r ∈ art.ternary_tag_based_relations)
    (hfail : ∀ s, ∃ err, RE622step (labelsE.drop 1) (labelsR.drop 1)
      (buildGoldIndex
        (fun x : TernRel => (x.subject_label, x.predicate, x.object_label)) (fun l => l)
        (gt.map (fun d => (d.1, d.2.ternary_tag_based_relations)))).1 pmid r s = .error err) :
    ∃ err, RE_evaluation_subtask_622 gt preds labelsE labelsR = .error err := by
  obtain ⟨err, herr⟩ := evalDocs_fail
    (RE622step (labelsE.drop 1) (labelsR.drop 1)
      (buildGoldIndex
        (fun x : TernRel => (x.subject_label, x.predicate, x.object_label)) (fun l => l)
        (gt.map (fun d => (d.1, d.2.ternary_tag_based_relations)))).1)
    (preds.map (fun d => (d.1, d.2.ternary_tag_based_relations))) pmid
    art.ternary_tag_based_relations r
    (List.mem_map_of_mem _ hmem) hit hfail
    ((buildGoldIndex
        (fun x : TernRel => (x.subject_label, x.predicate, x.object_label)) (fun l => l)
        (gt.map (fun d => (d.1, d.2.ternary_tag_based_relations)))).2.map (fun p => (p.1, 0)),
     (buildGoldIndex
        (fun x : TernRel => (x.subject_label, x.predicate, x.object_label)) (fun l => l)
        (gt.map (fun d => (d.1, d.2.ternary_tag_based_relations)))).2.map (fun p => (p.1, 0)))
  exact ⟨err, by rw [RE_evaluation_subtask_622, RE622_counts, herr]⟩

theorem RE623_evaluation_fail {gt preds : List (String × Article)}
    {labelsE labelsR : List String} (pmid : String) (art : Article) (r : MentionRel)
    (hmem : (pmid, art) ∈ preds) (hit : r ∈ art.ternary_mention_based_relations)
    (hfail : ∀ s, ∃ err, RE623step (labelsE.drop 1) (labelsR.drop 1)
      (buildGoldIndex (fun x : MentionRel => x)
        (fun x => (x.subject_label, x.predicate, x.object_label))
        (gt.map (fun d => (d.1, d.2.ternary_mention_based_relations)))).1 pmid r s = .error err) :
    ∃ err, RE_evaluation_subtask_623 gt preds labelsE labelsR = .error err := by
  obtain ⟨err, herr⟩ := evalDocs_fail
    (RE623step (labelsE.drop 1) (labelsR.drop 1)
      (buildGoldIndex (fun x : MentionRel => x)
        (fun x => (x.subject_label, x.predicate, x.object_label))
        (gt.map (fun d => (d.1, d.2.ternary_mention_based_relations)))).1)
    (preds.map (fun d => (d.1, d.2.ternary_mention_based_relations))) pmid
    art.ternary_mention_based_relations r
    (List.mem_map_of_mem _ hmem) hit hfail
    ((buildGoldIndex (fun x : MentionRel => x)
        (fun x => (x.subject_label, x.predicate, x.object_label))
        (gt.map (fun d => (d.1, d.2.ternary_mention_based_relations)))).2.map
          (fun p => (p.1, 0)),
     (buildGoldIndex (fun x : MentionRel => x)
        (fun x => (x.subject_label, x.predicate, x.object_label))
        (gt.map (fun d => (d.1, d.2.ternary_mention_based_relations)))).2.map
          (fun p => (p.1, 0)))
  exact ⟨err, by rw [RE_evaluation_subtask_623, RE623_counts, herr]⟩

/-! ### C6 -/

/-- C6: any predicted item carrying a label or predicate outside the legal
vocabulary (the loaded vocabulary with its reserved first entry dropped)
makes the whole run fail - no metrics are returned - and the per-item
validation gate itself raises an error naming the document id and the
offending value. -/
theorem claim6_illegal_label_aborts :
    (∀ (gt preds : List (String × Article)) (labelsAll : List String)
        (pmid : String) (art : Article) (e : Entity),
        (pmid, art) ∈ preds → e ∈ art.entities → e.label ∉ labelsAll.drop 1 →
        ∃ err, NER_evaluation gt preds labelsAll = .error err)
    ∧ (∀ (gt preds : List (String × Article)) (labelsAll : List String)
        (pmid : String) (art : Article) (r : BinRel),
        (pmid, art) ∈ preds → r ∈ art.binary_tag_based_relations →
        (r.subject_label ∉ labelsAll.drop 1 ∨ r.object_label ∉ labelsAll.drop 1) →
        ∃ err, RE_evaluation_subtask_621 gt preds labelsAll = .error err)
    ∧ (∀ (gt preds : List (String × Article)) (labelsE labelsR : List String)
        (pmid : String) (art : Article) (r : TernRel),
        (pmid, art) ∈ preds → r ∈ art.ternary_tag_based_relations →
        (r.subject_label ∉ labelsE.drop 1 ∨ r.object_label ∉ labelsE.drop 1
          ∨ r.predicate ∉ labelsR.drop 1) →
        ∃ err, RE_evaluation_subtask_622 gt preds labelsE labelsR = .error err)
    ∧ (∀ (gt preds : List (String × Article)) (labelsE labelsR : List String)
        (pmid : String) (art : Article) (r : MentionRel),
        (pmid, art) ∈ preds → r ∈ art.ternary_mention_based_relations →
        (r.subject_label ∉ labelsE.drop 1 ∨ r.object_label ∉ labelsE.drop 1
          ∨ r.predicate ∉ labelsR.drop 1) →
        ∃ err, RE_evaluation_subtask_623 gt preds labelsE labelsR = .error err)
    ∧ (∀ (legal : List String) (gold : List (String × List Entity)) (pmid : String)
        (e : Entity) (st : List (String × Nat) × List (String × Nat)),
        e.label ∉ legal →
        NERstep legal gold pmid e st = .error (.illegalLabel pmid e.label))
    ∧ (∀ (legalE : List String) (gold : List (String × List (String × String)))
        (pmid : String) (r : BinRel)
        (st : List ((String × String) × Nat) × List ((String × String) × Nat)),
        (r.subject_label ∉ legalE ∨ r.object_label ∉ legalE) →
        ∃ v, (v = r.subject_label ∨ v = r.object_label) ∧ v ∉ legalE ∧
          RE621step legalE gold pmid r st = .error (.illegalLabel pmid v)) := by
  refine ⟨?_, ?_, ?_, ?_, ?_, ?_⟩
  · intro gt preds labelsAll pmid art e hmem hit hv
    exact NER_evaluation_fail pmid art e hmem hit
      (fun s => ⟨.illegalLabel pmid e.label, NERstep_illegal _ _ _ _ s hv⟩)
  · intro gt preds labelsAll pmid art r hmem hit hv
    refine RE621_evaluation_fail pmid art r hmem hit (fun s => ?_)
    obtain ⟨v, _, _, hstep⟩ := RE621step_illegal _ _ pmid r s hv
    exact ⟨.illegalLabel pmid v, hstep⟩
  · intro gt preds labelsE labelsR pmid art r hmem hit hv
    refine RE622_evaluation_fail pmid art r hmem hit (fun s => ?_)
    obtain ⟨v, _, hstep⟩ := RE622step_illegal _ _ _ pmid r s hv
    exact ⟨.illegalLabel pmid v, hstep⟩
  · intro gt preds labelsE labelsR pmid art r hmem hit hv
    refine RE623_evaluation_fail pmid art r hmem hit (fun s => ?_)
    obtain ⟨v, _, hstep⟩ := RE623step_illegal _ _ _ pmid r s hv
    exact ⟨.illegalLabel pmid v, hstep⟩
  · intro legal gold pmid e st hv
    exact NERstep_illegal legal gold pmid e st hv
  · intro legalE gold pmid r st hv
    exact RE621step_illegal legalE gold pmid r st hv

/-- Prediction with the out-of-vocabulary label XYZ for the C6 witness. -/
def c6Preds : List (String × Article) :=
  [("D1", { entities := [⟨0, 5, "title", "BRCA1", "XYZ"⟩] })]

/-- Witness for C6: the concrete prediction with illegal label XYZ makes
the NER evaluation fail. -/
theorem claim6_witness :
    ∃ err, NER_evaluation wGT c6Preds wLabelsE = .error err :=
  claim6_illegal_label_aborts.1 wGT c6Preds wLabelsE "D1"
    { entities := [⟨0, 5, "title", "BRCA1", "XYZ"⟩] } ⟨0, 5, "title", "BRCA1", "XYZ"⟩
    (by simp [c6Preds]) (by simp) (by simp [wLabelsE])

/-! ### Gold-index key lemmas (for C7) -/

theorem buildGold_inner_keys {κ β item : Type} [DecidableEq κ] [DecidableEq β]
    (toEntry : item → β) (toKey : β → κ) (pmid : String) :
    ∀ (items : List item) (g : List (String × List β)) (a : List (κ × Nat)),
      ((items.foldl (fun acc2 it =>
          let e := toEntry it
          (dappendItem acc2.1 pmid e, dseed acc2.2 (toKey e))) (g, a)).1).map Prod.fst
        = g.map Prod.fst := by
  intro items
  induction items with
  | nil => intro g a; rfl
  | cons x xs ih =>
    intro g a
    rw [List.foldl_cons]
    have step := ih (dappendItem g pmid (toEntry x)) (dseed a (toKey (toEntry x)))
    exact step.trans (by rw [dappendItem, dset_map_fst])

theorem buildGold_keys_sub {κ β item : Type} [DecidableEq κ] [DecidableEq β]
    (toEntry : item → β) (toKey : β → κ) :
    ∀ (docs : List (String × List item)) (g : List (String × List β))
      (a : List (κ × Nat)) (q : String),
      dcontains ((docs.foldl
        (fun acc doc =>
          let g0 := if dcontains acc.1 doc.1 then acc.1 else acc.1 ++ [(doc.1, [])]
          doc.2.foldl
            (fun acc2 it =>
              let e := toEntry it
              (dappendItem acc2.1 doc.1 e, dseed acc2.2 (toKey e)))
            (g0, acc.2)) (g, a)).1) q = true →
      q ∈ g.map Prod.fst ∨ q ∈ docs.map Prod.fst := by
  intro docs
  induction docs with
  | nil => intro g a q hq; exact Or.inl ((dcontains_iff_mem g q).mp hq)
  | cons d ds ih =>
    intro g a q hq
    have hq' : dcontains ((ds.foldl
        (fun acc doc =>
          let g0 := if dcontains acc.1 doc.1 then acc.1 else acc.1 ++ [(doc.1, [])]
          doc.2.foldl
            (fun acc2 it =>
              let e := toEntry it
              (dappendItem acc2.1 doc.1 e, dseed acc2.2 (toKey e)))
            (g0, acc.2))
        ((d.2.foldl
            (fun acc2 it =>
              let e := toEntry it
              (dappendItem acc2.1 d.1 e, dseed acc2.2 (toKey e)))
            ((if dcontains g d.1 then g else g ++ [(d.1, [])]), a)).1,
         (d.2.foldl
            (fun acc2 it =>
              let e := toEntry it
              (dappendItem acc2.1 d.1 e, dseed acc2.2 (toKey e)))
            ((if dcontains g d.1 then g else g ++ [(d.1, [])]), a)).2)).1) q = true := hq
    rcases ih _ _ q hq' with hl | hr
    · rw [buildGold_inner_keys toEntry toKey d.1 d.2
        (if dcontains g d.1 then g else g ++ [(d.1, [])]) a] at hl
      by_cases hgc : dcontains g d.1 = true
      · rw [if_pos hgc] at hl
        exact Or.inl hl
      · rw [if_neg hgc, List.map_append] at hl
        rcases List.mem_append.mp hl with h1 | h2
        · exact Or.inl h1
        · simp only [List.map_cons, List.map_nil, List.mem_singleton] at h2
          subst h2
          exact Or.inr (by simp)
    · exact Or.inr (by simp only [List.map_cons, List.mem_cons]; exact Or.inr hr)

theorem buildGoldIndex_lookup_none {κ β item : Type} [DecidableEq κ] [DecidableEq β]
    (toEntry : item → β) (toKey : β → κ) (docs : List (String × List item)) (p : String)
    (hp : p ∉ docs.map Prod.fst) :
    dlookup (buildGoldIndex toEntry toKey docs).1 p = none := by
  cases hl : dlookup (buildGoldIndex toEntry toKey docs).1 p with
  | none => rfl
  | some v =>
    have hc : dcontains (buildGoldIndex toEntry toKey docs).1 p = true := by
      rw [dcontains, hl]
      rfl
    rw [buildGoldIndex] at hc
    rcases buildGold_keys_sub toEntry toKey docs [] [] p hc with h0 | hd
    · simp at h0
    · exact absurd hd hp

theorem NERstep_missingDoc (legal : List String) (gold : List (String × List Entity))
    (pmid : String) (e : Entity) (st : List (String × Nat) × List (String × Nat))
    (hv : e.label ∈ legal) (hg : dlookup gold pmid = none) :
    NERstep legal gold pmid e st = .error (.missingDocKey pmid) := by
  rw [NERstep, if_neg (not_not_intro hv), tallyItem, hg]

theorem RE621step_missingDoc (legalE : List String)
    (gold : List (String × List (String × String))) (pmid : String) (r : BinRel)
    (st : List ((String × String) × Nat) × List ((String × String) × Nat))
    (hs : r.subject_label ∈ legalE) (ho : r.object_label ∈ legalE)
    (hg : dlookup gold pmid = none) :
    RE621step legalE gold pmid r st = .error (.missingDocKey pmid) := by
  rw [RE621step, if_neg (not_not_intro hs), if_neg (not_not_intro ho), tallyItem, hg]

/-! ### C7 -/

/-- Predictions naming a document id absent from the ground truth, with an
empty entity list. -/
def c7Preds : List (String × Article) := [("D2", {})]

/-- C7 is false as stated: the prediction set names document D2, which does
not exist in the ground truth, yet the evaluation completes and returns a
metrics result, because the gold dict is only indexed inside the per-item
loop and D2 contributes no items. -/
theorem claim7_counterexample :
    ("D2" ∈ c7Preds.map Prod.fst) ∧ ("D2" ∉ wGT.map Prod.fst) ∧
    ∃ m, NER_evaluation wGT c7Preds wLabelsE = .ok m :=
  ⟨by simp [c7Preds], by simp [wGT], ⟨_, rfl⟩⟩

/-- C7 amended: a prediction document absent from the ground truth makes
the run fail iff it contributes at least one predicted item (the per-item
gold lookup raises the missing-document KeyError once validation passes;
an illegal label on that item aborts even earlier); with an empty item
list the unknown document is silently accepted.  Stated for the two cited
routines, plus the item-level missing-document error shape. -/
theorem claim7_missing_document :
    (∀ (gt preds : List (String × Article)) (labelsAll : List String)
        (pmid : String) (art : Article),
        (pmid, art) ∈ preds → pmid ∉ gt.map Prod.fst → art.entities ≠ [] →
        ∃ err, NER_evaluation gt preds labelsAll = .error err)
    ∧ (∀ (gt preds : List (String × Article)) (labelsAll : List String)
        (pmid : String) (art : Article),
        (pmid, art) ∈ preds → pmid ∉ gt.map Prod.fst →
        art.binary_tag_based_relations ≠ [] →
        ∃ err, RE_evaluation_subtask_621 gt preds labelsAll = .error err)
    ∧ (∀ (legal : List String) (gold : List (String × List Entity)) (pmid : String)
        (e : Entity) (st : List (String × Nat) × List (String × Nat)),
        e.label ∈ legal → dlookup gold pmid = none →
        NERstep legal gold pmid e st = .error (.missingDocKey pmid)) := by
  refine ⟨?_, ?_, ?_⟩
  · intro gt preds labelsAll pmid art hmem hout hne
    obtain ⟨x, hx⟩ := List.exists_mem_of_ne_nil _ hne
    have hgold : dlookup (buildGoldIndex (fun y : Entity => y) Entity.label
        (gt.map (fun d => (d.1, d.2.entities)))).1 pmid = none := by
      refine buildGoldIndex_lookup_none _ _ _ pmid ?_
      intro hmm
      rw [List.map_map] at hmm
      exact hout (by simpa using hmm)
    refine NER_evaluation_fail pmid art x hmem hx (fun s => ?_)
    by_cases hv : x.label ∉ labelsAll.drop 1
    · exact ⟨.illegalLabel pmid x.label, NERstep_illegal _ _ _ _ s hv⟩
    · exact ⟨.missingDocKey pmid,
        NERstep_missingDoc _ _ _ _ s (not_not.mp hv) hgold⟩
  · intro gt preds labelsAll pmid art hmem hout hne
    obtain ⟨x, hx⟩ := List.exists_mem_of_ne_nil _ hne
    have hgold : dlookup (buildGoldIndex
        (fun y : BinRel => (y.subject_label, y.object_label)) (fun l => l)
        (gt.map (fun d => (d.1, d.2.binary_tag_based_relations)))).1 pmid = none := by
      refine buildGoldIndex_lookup_none _ _ _ pmid ?_
      intro hmm
      rw [List.map_map] at hmm
      exact hout (by simpa using hmm)
    refine RE621_evaluation_fail pmid art x hmem hx (fun s => ?_)
    by_cases hsub : x.subject_label ∉ labelsAll.drop 1
    · obtain ⟨v, _, _, hstep⟩ := RE621step_illegal _ _ pmid x s (Or.inl hsub)
      exact ⟨.illegalLabel pmid v, hstep⟩
    · by_cases hobj : x.object_label ∉ labelsAll.drop 1
      · obtain ⟨v, _, _, hstep⟩ := RE621step_illegal _ _ pmid x s (Or.inr hobj)
        exact ⟨.illegalLabel pmid v, hstep⟩
      · exact ⟨.missingDocKey pmid, RE621step_missingDoc _ _ _ _ s
          (not_not.mp hsub) (not_not.mp hobj) hgold⟩
  · intro legal gold pmid e st hv hg
    exact NERstep_missingDoc legal gold pmid e st hv hg

/-- Predictions naming the unknown document D2 with one (legal) entity. -/
def c7PredsItem : List (String × Article) :=
  [("D2", { entities := [wEntity] })]

/-- Witness for the amended C7: with one predicted item under the unknown
document id, the run does fail. -/
theorem claim7_witness :
    ∃ err, NER_evaluation wGT c7PredsItem wLabelsE = .error err :=
  claim7_missing_document.1 wGT c7PredsItem wLabelsE "D2" { entities := [wEntity] }
    (by simp [c7PredsItem]) (by simp [wGT]) (by simp)

/-! ### C10 -/

theorem evalDocs_singleton {σ item : Type} (stepFn : String → item → σ → Except EvalError σ)
    (pmid : String) (items : List item) (init : σ) :
    evalDocs stepFn [(pmid, items)] init
      = items.foldlM (fun st2 it => stepFn pmid it st2) init := by
  simp only [evalDocs, List.foldlM_cons, List.foldlM_nil]
  rw [bind_pure]

theorem ner_replicate_items_tp (legal : List String) (gold : List (String × List Entity))
    (pmid : String) (e : Entity) (gl : List Entity)
    (hg : dlookup gold pmid = some gl) (hmem : e ∈ gl) (hv : e.label ∈ legal) :
    ∀ (k : Nat) (pred tp : List (String × Nat)), dcontains tp e.label = true →
      ∃ pred' tp', (List.replicate k e).foldlM
          (fun st2 it => NERstep legal gold pmid it st2) (pred, tp) = .ok (pred', tp')
        ∧ dget tp' e.label = dget tp e.label + k ∧ dcontains tp' e.label = true := by
  intro k
  induction k with
  | zero =>
    intro pred tp hc
    exact ⟨pred, tp, by rw [List.replicate_zero, List.foldlM_nil, except_pure],
      by omega, hc⟩
  | succ n ih =>
    intro pred tp hc
    have hstep : NERstep legal gold pmid e (pred, tp)
        = .ok ((if dcontains pred e.label then dbump pred e.label else pred),
          dbump tp e.label) := by
      rw [NERstep, if_neg (not_not_intro hv), tallyItem, hg]
      dsimp only
      rw [if_pos hmem, if_pos hc]
    obtain ⟨pred', tp', hfold, hcount, hc'⟩ := ih
      (if dcontains pred e.label then dbump pred e.label else pred) (dbump tp e.label)
      (by rw [dcontains_dbump]; exact hc)
    refine ⟨pred', tp', ?_, ?_, hc'⟩
    · rw [List.replicate_succ, List.foldlM_cons, hstep, except_bind_ok]
      exact hfold
    · rw [hcount, dget_dbump_self tp e.label hc]
      omega

/-- Predictions repeating the single gold entity of wGT twice. -/
def c10Preds : List (String × Article) := [("D1", { entities := [wEntity, wEntity] })]

/-- Per-label and pooled values of the duplicated-prediction run:
2 true positives against 2 predicted and 1 annotated. -/
def c10P : ℚ := 2 / (2 + eps)

/-- Smoothed recall 2/(1+eps) of the duplicated-prediction run: above 1. -/
def c10R : ℚ := 2 / (1 + eps)

/-- Smoothed F1 of the duplicated-prediction run. -/
def c10F : ℚ := 2 * ((c10P * c10R) / (c10P + c10R + eps))

/-- The metrics of the duplicated-prediction run. -/
def c10M : SixMetrics := ⟨c10P, c10R, c10F, c10P, c10R, c10F⟩

/-- C10: true positives are counted per predicted occurrence by a plain
membership test without removal - predicting the same gold-matched tuple
k times bumps the true-positive counter k times - and consequently, on a
concrete duplicated input, the true-positive count exceeds the annotated
count and the computed micro recall exceeds 1. -/
theorem claim10_membership_without_removal :
    (∀ (k : Nat) (legal : List String) (gold : List (String × List Entity))
        (pmid : String) (e : Entity) (gl : List Entity) (pred tp : List (String × Nat)),
        dlookup gold pmid = some gl → e ∈ gl → e.label ∈ legal →
        dcontains tp e.label = true →
        ∃ pred' tp', evalDocs (NERstep legal gold) [(pmid, List.replicate k e)] (pred, tp)
            = .ok (pred', tp') ∧ dget tp' e.label = dget tp e.label + k)
    ∧ NER_counts wGT c10Preds wLabelsE = .ok ([("Gene", 1)], [("Gene", 2)], [("Gene", 2)])
    ∧ dget [(("Gene" : String), 1)] "Gene" < dget [(("Gene" : String), 2)] "Gene"
    ∧ NER_evaluation wGT c10Preds wLabelsE = .ok c10M
    ∧ 1 < c10M.microRecall := by
  refine ⟨?_, rfl, by decide, ?_, ?_⟩
  · intro k legal gold pmid e gl pred tp hg hmem hv hc
    rw [evalDocs_singleton]
    obtain ⟨pred', tp', hfold, hcount, _⟩ :=
      ner_replicate_items_tp legal gold pmid e gl hg hmem hv k pred tp hc
    exact ⟨pred', tp', hfold, hcount⟩
  · have hc : NER_counts wGT c10Preds wLabelsE
        = .ok ([("Gene", 1)], [("Gene", 2)], [("Gene", 2)]) := rfl
    have hlink : NER_evaluation wGT c10Preds wLabelsE
        = aggregateMetrics [("Gene", 1)] [("Gene", 2)] [("Gene", 2)] := by
      rw [NER_evaluation, hc]
    rw [hlink, aggregateMetrics]
    norm_num [dget, dlookup, c10M, c10P, c10R, c10F]
  · norm_num [c10M, c10R, eps]

/-- Witness for C10: the replicate-k statement applied at k = 2 to the
concrete entity, matching the duplicated-prediction run. -/
theorem claim10_witness :
    ∃ pred' tp', evalDocs (NERstep ["Gene", "Chem"] [("D1", [wEntity])])
        [("D1", List.replicate 2 wEntity)] ([("Gene", 0)], [("Gene", 0)])
        = .ok (pred', tp')
      ∧ dget tp' wEntity.label = dget [(("Gene" : String), 0)] wEntity.label + 2 :=
  claim10_membership_without_removal.1 2 ["Gene", "Chem"] [("D1", [wEntity])] "D1"
    wEntity [wEntity] [("Gene", 0)] [("Gene", 0)] rfl (by simp) (by simp [wEntity]) rfl

/-! ### C8 -/

/-- C8 records the divergence at the dispatch: for an unmatched subtask,
`compute_metrics` executes `return ValueError(...)` - returning the
exception object as an ordinary value, not raising it - so the dispatch
completes normally instead of aborting; the ensemble voter does raise an
unsupported-subtask ValueError, but only from inside the relation loop,
so an input with no relations returns normally as well. -/
theorem claim8_dispatch_code_bug :
    (∀ (gt preds : List (String × Article)) (labelsE labelsR : List String),
        compute_metrics_re "6.9.9" gt preds labelsE labelsR
          = .ok (.valueErrorObject "No matching subtask"))
    ∧ performRelationLevelInference "6.9.9" [[("D1", [dummyRel])]]
        = .error ("Unsupported subtask: " ++ "6.9.9")
    ∧ performRelationLevelInference "6.9.9" [] = .ok [] := by
  refine ⟨?_, ?_, ?_⟩
  · intro gt preds labelsE labelsR
    rfl
  · rfl
  · rfl

/-! ### C9 -/

/-- The total vote key of the three supported subtasks, as a pure
function (`keyOf` returns `.ok` of this whenever the subtask is known). -/
def keyFn (st : String) (p : String) (r : MentionRel) : List String :=
  if st = "6.2.1" then [p, r.subject_label, r.object_label]
  else if st = "6.2.2" then [p, r.subject_label, r.predicate, r.object_label]
  else [p, r.subject_text_span, r.subject_label, r.predicate,
    r.object_text_span, r.object_label]

theorem keyOf_known (st : String)
    (hst : st = "6.2.1" ∨ st = "6.2.2" ∨ st = "6.2.3")
    (p : String) (r : MentionRel) : keyOf st p r = .ok (keyFn st p r) := by
  rcases hst with h | h | h <;> subst h <;> rfl

/-- The pure vote-collection fold (what `collectRelationVotes` computes on
a supported subtask). -/
def collectPure (st : String) (sets : List (List (String × List MentionRel))) :
    List (List String × List MentionRel) :=
  sets.foldl
    (fun votes mp =>
      mp.foldl
        (fun v2 doc =>
          doc.2.foldl (fun v3 r => dpush v3 (keyFn st doc.1 r) r) v2)
        votes)
    []

theorem collectRelationVotes_known (st : String)
    (hst : st = "6.2.1" ∨ st = "6.2.2" ∨ st = "6.2.3")
    (sets : List (List (String × List MentionRel))) :
    collectRelationVotes st sets = .ok (collectPure st sets) := by
  rw [collectRelationVotes, collectPure]
  refine foldlM_of_pure _ _ ?_ sets []
  intro votes mp
  refine foldlM_of_pure _ _ ?_ mp votes
  intro v2 doc
  refine foldlM_of_pure _ _ ?_ doc.2 v2
  intro v3 r
  rw [keyOf_known st hst]
  rfl

/-- The relations of one document list whose key equals `key`, in order. -/
def occsRels (st pid : String) (key : List String) : List MentionRel → List MentionRel
  | [] => []
  | r :: rs =>
    if keyFn st pid r = key then r :: occsRels st pid key rs else occsRels st pid key rs

/-- The relations of one model's prediction set whose key equals `key`. -/
def occsSet (st : String) (key : List String) :
    List (String × List MentionRel) → List MentionRel
  | [] => []
  | doc :: docs => occsRels st doc.1 key doc.2 ++ occsSet st key docs

/-- All occurrences of `key` across the prediction sets, in traversal
order (model order, then document order, then relation order). -/
def occurrencesOfKey (st : String) (key : List String) :
    List (List (String × List MentionRel)) → List MentionRel
  | [] => []
  | mp :: sets => occsSet st key mp ++ occurrencesOfKey st key sets

theorem dlookup_append_of_none [DecidableEq κ] (d1 d2 : List (κ × ν)) (k : κ)
    (h : dlookup d1 k = none) : dlookup (d1 ++ d2) k = dlookup d2 k := by
  induction d1 with
  | nil => rfl
  | cons p rest ih =>
    rw [dlookup_cons] at h
    by_cases hk : p.1 = k
    · rw [if_pos hk] at h; cases h
    · rw [if_neg hk] at h
      rw [List.cons_append, dlookup_cons, if_neg hk]
      exact ih h

theorem dlookup_append_of_some [DecidableEq κ] (d1 d2 : List (κ × ν)) (k : κ) (v : ν)
    (h : dlookup d1 k = some v) : dlookup (d1 ++ d2) k = some v := by
  induction d1 with
  | nil => cases h
  | cons p rest ih =>
    rw [dlookup_cons] at h
    by_cases hk : p.1 = k
    · rw [if_pos hk] at h
      rw [List.cons_append, dlookup_cons, if_pos hk]
      exact h
    · rw [if_neg hk] at h
      rw [List.cons_append, dlookup_cons, if_neg hk]
      exact ih h

theorem dcontains_false_lookup_none [DecidableEq κ] (d : List (κ × ν)) (k : κ)
    (h : dcontains d k = false) : dlookup d k = none := by
  rw [dcontains] at h
  cases hl : dlookup d k
  · rfl
  · rw [hl] at h; simp at h

theorem dgetL_dpush_self [DecidableEq κ] (d : List (κ × List ν)) (k : κ) (b : ν) :
    dgetL (dpush d k b) k = dgetL d k ++ [b] := by
  rw [dpush]
  by_cases hc : dcontains d k = true
  · rw [if_pos hc, dappendItem, dgetL, dlookup_dset_self d k _ hc]
    rfl
  · have hcf : dcontains d k = false := by
      cases hcb : dcontains d k
      · rfl
      · exact absurd hcb hc
    have hnone := dcontains_false_lookup_none d k hcf
    rw [if_neg hc, dgetL, dlookup_append_of_none d [(k, [b])] k hnone, dlookup_cons]
    rw [dgetL, hnone]
    simp

theorem dgetL_dpush_ne [DecidableEq κ] (d : List (κ × List ν)) (k k' : κ) (b : ν)
    (h : k' ≠ k) : dgetL (dpush d k b) k' = dgetL d k' := by
  rw [dpush]
  by_cases hc : dcontains d k = true
  · rw [if_pos hc, dappendItem, dgetL, dlookup_dset_ne d k k' _ h, dgetL]
  · rw [if_neg hc, dgetL, dgetL]
    cases hl : dlookup d k' with
    | none =>
      rw [dlookup_append_of_none d [(k, [b])] k' hl, dlookup_cons]
      rw [if_neg (fun hh : k = k' => h hh.symm)]
      rfl
    | some v =>
      rw [dlookup_append_of_some d [(k, [b])] k' v hl]

theorem votesRels_dgetL (st pid : String) (key : List String) :
    ∀ (rels : List MentionRel) (v0 : List (List String × List MentionRel)),
      dgetL (rels.foldl (fun v3 r => dpush v3 (keyFn st pid r) r) v0) key
        = dgetL v0 key ++ occsRels st pid key rels := by
  intro rels
  induction rels with
  | nil => intro v0; rw [List.foldl_nil, occsRels, List.append_nil]
  | cons r rs ih =>
    intro v0
    rw [List.foldl_cons, ih, occsRels]
    by_cases hk : keyFn st pid r = key
    · rw [if_pos hk, hk, dgetL_dpush_self]
      simp [List.append_assoc]
    · rw [if_neg hk, dgetL_dpush_ne v0 _ key r (fun hh => hk hh.symm)]

theorem votesSet_dgetL (st : String) (key : List String) :
    ∀ (mp : List (String × List MentionRel)) (v0 : List (List String × List MentionRel)),
      dgetL (mp.foldl
          (fun v2 doc => doc.2.foldl (fun v3 r => dpush v3 (keyFn st doc.1 r) r) v2) v0)
          key
        = dgetL v0 key ++ occsSet st key mp := by
  intro mp
  induction mp with
  | nil => intro v0; rw [List.foldl_nil, occsSet, List.append_nil]
  | cons d ds ih =>
    intro v0
    rw [List.foldl_cons, ih, votesRels_dgetL st d.1 key d.2 v0, occsSet,
      List.append_assoc]

theorem collectPure_dgetL (st : String) (key : List String) :
    ∀ (sets : List (List (String × List MentionRel)))
      (v0 : List (List String × List MentionRel)),
      dgetL (sets.foldl
          (fun votes mp =>
            mp.foldl
              (fun v2 doc => doc.2.foldl (fun v3 r => dpush v3 (keyFn st doc.1 r) r) v2)
              votes) v0) key
        = dgetL v0 key ++ occurrencesOfKey st key sets := by
  intro sets
  induction sets with
  | nil => intro v0; rw [List.foldl_nil, occurrencesOfKey, List.append_nil]
  | cons mp sets ih =>
    intro v0
    rw [List.foldl_cons, ih, votesSet_dgetL st key mp v0, occurrencesOfKey,
      List.append_assoc]

theorem ceil_half_eq (n : Nat) : Nat.ceil ((n : ℚ) / 2) = (n + 1) / 2 := by
  rcases Nat.even_or_odd n with ⟨m, hm⟩ | ⟨m, hm⟩
  · subst hm
    have hcast : ((m + m : Nat) : ℚ) / 2 = (m : ℚ) := by push_cast; ring
    rw [hcast, Nat.ceil_natCast]
    omega
  · subst hm
    have hcast : ((2 * m + 1 : Nat) : ℚ) / 2 = (m : ℚ) + 1 / 2 := by push_cast; ring
    rw [hcast]
    have hceil : Nat.ceil ((m : ℚ) + 1 / 2) = m + 1 := by
      rw [Nat.ceil_eq_iff (Nat.succ_ne_zero m)]
      constructor
      · push_cast
        norm_num
      · push_cast
        norm_num
    rw [hceil]
    omega

/-- C9 amended: on every supported subtask the vote collection succeeds
and, for every key, its vote list is exactly the list of occurrences of
that key across all prediction sets in traversal order (so a model listing
the same key several times contributes that many votes, and the list's
head is the first-encountered relation object); the voter then keeps, per
key, the head of that list iff its length reaches ceil(N/2) = (N+1)/2,
grouping it under the paper id. -/
theorem claim9_amended_majority (st : String)
    (hst : st = "6.2.1" ∨ st = "6.2.2" ∨ st = "6.2.3")
    (sets : List (List (String × List MentionRel))) :
    collectRelationVotes st sets = .ok (collectPure st sets) ∧
    (∀ key, dgetL (collectPure st sets) key = occurrencesOfKey st key sets) ∧
    performRelationLevelInference st sets
      = .ok ((collectPure st sets).foldl
          (fun res kv =>
            if (sets.length + 1) / 2 ≤ kv.2.length then
              dpush res (kv.1.headD "") (kv.2.headD dummyRel)
            else res) []) := by
  refine ⟨collectRelationVotes_known st hst sets, ?_, ?_⟩
  · intro key
    rw [collectPure, collectPure_dgetL st key sets]
    rw [dgetL, dlookup_nil]
    rfl
  · rw [performRelationLevelInference, collectRelationVotes_known st hst sets]
    dsimp only
    rw [ceil_half_eq sets.length]

/-- The relation the duplicated-vote counterexample proposes. -/
def relC9 : MentionRel := ⟨"s", "A", "P", "o", "B"⟩

/-- Four prediction sets; only the first proposes the key, and it does so
twice via a duplicated relation. -/
def c9Sets : List (List (String × List MentionRel)) :=
  [[("D1", [relC9, relC9])], [], [], []]

/-- How many of the prediction sets propose a given key at least once. -/
def modelsProposing (st : String) (key : List String)
    (sets : List (List (String × List MentionRel))) : Nat :=
  (sets.filter
    (fun mp => mp.any (fun doc => doc.2.any (fun r => keyFn st doc.1 r == key)))).length

/-- C9 is false as stated: with N = 4 prediction sets, the key below is
proposed by exactly 1 model, yet it is retained (the model listed the
duplicated relation twice, and the code counts vote occurrences, not
proposing models). -/
theorem claim9_counterexample :
    c9Sets.length = 4 ∧
    modelsProposing "6.2.1" ["D1", "A", "B"] c9Sets = 1 ∧
    performRelationLevelInference "6.2.1" c9Sets = .ok [("D1", [relC9])] := by
  refine ⟨rfl, rfl, ?_⟩
  rw [performRelationLevelInference, collectRelationVotes_known "6.2.1" (Or.inl rfl) c9Sets]
  dsimp only
  rw [ceil_half_eq]
  rfl

/-- Witness for the amended C9: the amended statement instantiated on the
concrete four prediction sets at subtask 6.2.1. -/
theorem claim9_witness :
    collectRelationVotes "6.2.1" c9Sets = .ok (collectPure "6.2.1" c9Sets) ∧
    (∀ key, dgetL (collectPure "6.2.1" c9Sets) key
      = occurrencesOfKey "6.2.1" key c9Sets) ∧
    performRelationLevelInference "6.2.1" c9Sets
      = .ok ((collectPure "6.2.1" c9Sets).foldl
          (fun res kv =>
            if (c9Sets.length + 1) / 2 ≤ kv.2.length then
              dpush res (kv.1.headD "") (kv.2.headD dummyRel)
            else res) []) :=
  claim9_amended_majority "6.2.1" (Or.inl rfl) c9Sets

end GutMetrics
